import Mathlib

/-!
Verification development for the DDS (DirectDraw Surface) texture codec in
`libobs/graphics/dds-file.cpp`.

The C++ code is shallowly embedded: pure functions become Lean functions on
`Nat`, machine `uint32_t`/`uint64_t`/`size_t` arithmetic is `Nat` arithmetic
reduced modulo `2^32`/`2^64` exactly where the C computation can wrap, and
fallible functions return `Option` or an explicit result type.  The embedding
follows the 64-bit build of the file (the source's `static_assert(sizeof(size_t)
== 8)` branch); the 32-bit epilogue of `ComputePitch` is embedded separately as
`ComputePitch32` since it is the only place the two builds differ.

DXGI format codes are the numeric values of the Windows SDK `DXGI_FORMAT`
enumeration (dxgiformat.h), which the source uses through `<dxgi.h>`; the
Xbox/Win10 extension codes 116-120, 130-132, 189, 190 are `#define`d in the
source itself.
-/

set_option maxRecDepth 100000

/-- Modular reduction for 64-bit unsigned arithmetic (`uint64_t` / `size_t`). -/
def m64 (x : Nat) : Nat := x % 18446744073709551616

/-- The `size_t(-1)` out-of-range sentinel returned by `TexMetadata::ComputeIndex`. -/
def SIZE_MAX64 : Nat := 18446744073709551615

-- DXGI format codes used in statements and in the legacy format table.
def DXGI_FORMAT_UNKNOWN : Nat := 0
def DXGI_FORMAT_R32G32B32A32_FLOAT : Nat := 2
def DXGI_FORMAT_R16G16B16A16_FLOAT : Nat := 10
def DXGI_FORMAT_R16G16B16A16_UNORM : Nat := 11
def DXGI_FORMAT_R16G16B16A16_SNORM : Nat := 13
def DXGI_FORMAT_R32G32_FLOAT : Nat := 16
def DXGI_FORMAT_R10G10B10A2_UNORM : Nat := 24
def DXGI_FORMAT_R8G8B8A8_UNORM : Nat := 28
def DXGI_FORMAT_R8G8B8A8_UNORM_SRGB : Nat := 29
def DXGI_FORMAT_R8G8B8A8_SNORM : Nat := 31
def DXGI_FORMAT_R16G16_FLOAT : Nat := 34
def DXGI_FORMAT_R16G16_UNORM : Nat := 35
def DXGI_FORMAT_R16G16_SNORM : Nat := 37
def DXGI_FORMAT_R32_FLOAT : Nat := 41
def DXGI_FORMAT_R8G8_UNORM : Nat := 49
def DXGI_FORMAT_R8G8_SNORM : Nat := 51
def DXGI_FORMAT_R16_FLOAT : Nat := 54
def DXGI_FORMAT_R16_UNORM : Nat := 56
def DXGI_FORMAT_R8_UNORM : Nat := 61
def DXGI_FORMAT_A8_UNORM : Nat := 65
def DXGI_FORMAT_R8G8_B8G8_UNORM : Nat := 68
def DXGI_FORMAT_G8R8_G8B8_UNORM : Nat := 69
def DXGI_FORMAT_BC1_UNORM : Nat := 71
def DXGI_FORMAT_BC1_UNORM_SRGB : Nat := 72
def DXGI_FORMAT_BC2_UNORM : Nat := 74
def DXGI_FORMAT_BC2_UNORM_SRGB : Nat := 75
def DXGI_FORMAT_BC3_UNORM : Nat := 77
def DXGI_FORMAT_BC3_UNORM_SRGB : Nat := 78
def DXGI_FORMAT_BC4_UNORM : Nat := 80
def DXGI_FORMAT_BC4_SNORM : Nat := 81
def DXGI_FORMAT_BC5_UNORM : Nat := 83
def DXGI_FORMAT_BC5_SNORM : Nat := 84
def DXGI_FORMAT_B5G6R5_UNORM : Nat := 85
def DXGI_FORMAT_B5G5R5A1_UNORM : Nat := 86
def DXGI_FORMAT_B8G8R8A8_UNORM : Nat := 87
def DXGI_FORMAT_B8G8R8X8_UNORM : Nat := 88
def DXGI_FORMAT_B8G8R8A8_UNORM_SRGB : Nat := 91
def DXGI_FORMAT_B8G8R8X8_UNORM_SRGB : Nat := 93
def DXGI_FORMAT_BC6H_UF16 : Nat := 95
def DXGI_FORMAT_BC7_UNORM : Nat := 98
def DXGI_FORMAT_BC7_UNORM_SRGB : Nat := 99
def DXGI_FORMAT_YUY2 : Nat := 107
def DXGI_FORMAT_B4G4R4A4_UNORM : Nat := 115

/-- `IsValid`: the format code lies in the populated range 1..190. -/
def isValidFmt (fmt : Nat) : Bool := 1 ≤ fmt && fmt ≤ 190

/-- `IsPalettized`: AI44 (111), IA44 (112), P8 (113), A8P8 (114). -/
def isPalettized (fmt : Nat) : Bool :=
  fmt == 111 || fmt == 112 || fmt == 113 || fmt == 114

/-- `IsCompressed`: the 21 block-compressed BC1..BC7 format codes (70..84, 94..99). -/
def isCompressed (fmt : Nat) : Bool :=
  fmt == 70 || fmt == 71 || fmt == 72 || fmt == 73 || fmt == 74 || fmt == 75 ||
  fmt == 76 || fmt == 77 || fmt == 78 || fmt == 79 || fmt == 80 || fmt == 81 ||
  fmt == 82 || fmt == 83 || fmt == 84 || fmt == 94 || fmt == 95 || fmt == 96 ||
  fmt == 97 || fmt == 98 || fmt == 99

/-- `IsPacked`: R8G8_B8G8 (68), G8R8_G8B8 (69), YUY2 (107), Y210 (108), Y216 (109). -/
def isPacked (fmt : Nat) : Bool :=
  fmt == 68 || fmt == 69 || fmt == 107 || fmt == 108 || fmt == 109

/-- `IsPlanar`: NV12 (103), P010 (104), P016 (105), 420_OPAQUE (106), NV11 (110),
P208 (130), V208 (131), V408 (132), and Xbox codes 118, 119, 120. -/
def isPlanar (fmt : Nat) : Bool :=
  fmt == 103 || fmt == 104 || fmt == 105 || fmt == 106 || fmt == 110 ||
  fmt == 130 || fmt == 131 || fmt == 132 ||
  fmt == 118 || fmt == 119 || fmt == 120

/-- `BitsPerPixel`: the per-format bit-depth table (0 for unknown codes). -/
def bitsPerPixel (fmt : Nat) : Nat :=
  match fmt with
  | 1 | 2 | 3 | 4 => 128
  | 5 | 6 | 7 | 8 => 96
  | 9 | 10 | 11 | 12 | 13 | 14 | 15 | 16 | 17 | 18 | 19 | 20 | 21 | 22
  | 102 | 108 | 109 => 64
  | 23 | 24 | 25 | 26 | 27 | 28 | 29 | 30 | 31 | 32 | 33 | 34 | 35 | 36
  | 37 | 38 | 39 | 40 | 41 | 42 | 43 | 44 | 45 | 46 | 47 | 67 | 68 | 69
  | 87 | 88 | 89 | 90 | 91 | 92 | 93 | 100 | 101 | 107 | 116 | 117 | 189 => 32
  | 104 | 105 | 118 | 119 | 120 | 132 => 24
  | 48 | 49 | 50 | 51 | 52 | 53 | 54 | 55 | 56 | 57 | 58 | 59 | 85 | 86
  | 114 | 115 | 130 | 131 => 16
  | 103 | 106 | 110 => 12
  | 60 | 61 | 62 | 63 | 64 | 65 | 73 | 74 | 75 | 76 | 77 | 78 | 82 | 83
  | 84 | 94 | 95 | 96 | 97 | 98 | 99 | 111 | 112 | 113 | 190 => 8
  | 66 => 1
  | 70 | 71 | 72 | 79 | 80 | 81 => 4
  | _ => 0

-- CP_FLAGS pitch-computation policy bits.
def CP_FLAGS_LEGACY_DWORD : Nat := 0x1
def CP_FLAGS_PARAGRAPH : Nat := 0x2
def CP_FLAGS_YMM : Nat := 0x4
def CP_FLAGS_ZMM : Nat := 0x8
def CP_FLAGS_PAGE4K : Nat := 0x200
def CP_FLAGS_BAD_DXTN_TAILS : Nat := 0x1000
def CP_FLAGS_24BPP : Nat := 0x10000
def CP_FLAGS_16BPP : Nat := 0x20000
def CP_FLAGS_8BPP : Nat := 0x40000

/-- Case labels of `ComputePitch`'s first switch group: the BC formats with
8-byte blocks (BC1 70..72 and BC4 79..81). -/
def isBCBlock8 (fmt : Nat) : Bool :=
  fmt == 70 || fmt == 71 || fmt == 72 || fmt == 79 || fmt == 80 || fmt == 81

/-- Case labels of `ComputePitch`'s second switch group: the BC formats with
16-byte blocks (BC2/BC3 73..78, BC5 82..84, BC6H 94..96, BC7 97..99). -/
def isBCBlock16 (fmt : Nat) : Bool :=
  fmt == 73 || fmt == 74 || fmt == 75 || fmt == 76 || fmt == 77 || fmt == 78 ||
  fmt == 82 || fmt == 83 || fmt == 84 || fmt == 94 || fmt == 95 || fmt == 96 ||
  fmt == 97 || fmt == 98 || fmt == 99

/-- Bytes per 4x4 block of a block-compressed format (8 for BC1/BC4, 16 for the
rest), as used in the pitch formulas of `ComputePitch`. -/
def bcBlockBytes (fmt : Nat) : Nat := if isBCBlock8 fmt then 8 else 16

/-- The body of `ComputePitch`'s switch: computes the `uint64_t` pair
`(pitch, slice)`, or `none` for the `E_INVALIDARG` return (bits-per-pixel
unknown).  All additions and multiplications are `uint64_t` and hence reduced
by `m64`; divisions and shifts cannot overflow. -/
def computePitchRaw (fmt w h flags : Nat) : Option (Nat × Nat) :=
  if isBCBlock8 fmt then
    if flags &&& CP_FLAGS_BAD_DXTN_TAILS ≠ 0 then
      let nbw := w >>> 2
      let nbh := h >>> 2
      let pitch := max 1 (m64 (nbw * 8))
      let slice := max 1 (m64 (pitch * nbh))
      some (pitch, slice)
    else
      let nbw := max 1 (m64 (w + 3) / 4)
      let nbh := max 1 (m64 (h + 3) / 4)
      let pitch := m64 (nbw * 8)
      some (pitch, m64 (pitch * nbh))
  else if isBCBlock16 fmt then
    if flags &&& CP_FLAGS_BAD_DXTN_TAILS ≠ 0 then
      let nbw := w >>> 2
      let nbh := h >>> 2
      let pitch := max 1 (m64 (nbw * 16))
      let slice := max 1 (m64 (pitch * nbh))
      some (pitch, slice)
    else
      let nbw := max 1 (m64 (w + 3) / 4)
      let nbh := max 1 (m64 (h + 3) / 4)
      let pitch := m64 (nbw * 16)
      some (pitch, m64 (pitch * nbh))
  else if fmt == 68 || fmt == 69 || fmt == 107 then
    -- R8G8_B8G8, G8R8_G8B8, YUY2
    let pitch := m64 (m64 (w + 1) >>> 1 * 4)
    some (pitch, m64 (pitch * h))
  else if fmt == 108 || fmt == 109 then
    -- Y210, Y216
    let pitch := m64 (m64 (w + 1) >>> 1 * 8)
    some (pitch, m64 (pitch * h))
  else if fmt == 103 || fmt == 106 then
    -- NV12, 420_OPAQUE
    let pitch := m64 (m64 (w + 1) >>> 1 * 2)
    some (pitch, m64 (pitch * m64 (h + m64 (h + 1) >>> 1)))
  else if fmt == 104 || fmt == 105 || fmt == 118 || fmt == 119 || fmt == 120 then
    -- P010, P016, Xbox D16_UNORM_S8_UINT / R16_UNORM_X8 / X16_G8
    let pitch := m64 (m64 (w + 1) >>> 1 * 4)
    some (pitch, m64 (pitch * m64 (h + m64 (h + 1) >>> 1)))
  else if fmt == 110 then
    -- NV11
    let pitch := m64 (m64 (w + 3) >>> 2 * 4)
    some (pitch, m64 (m64 (pitch * h) * 2))
  else if fmt == 130 then
    -- P208
    let pitch := m64 (m64 (w + 1) >>> 1 * 2)
    some (pitch, m64 (m64 (pitch * h) * 2))
  else if fmt == 131 then
    -- V208
    let pitch := w
    some (pitch, m64 (pitch * m64 (h + m64 (m64 (h + 1) >>> 1 * 2))))
  else if fmt == 132 then
    -- V408
    let pitch := w
    some (pitch, m64 (pitch * m64 (h + m64 (h >>> 1 * 4))))
  else
    -- default: linear uncompressed
    let bpp :=
      if flags &&& CP_FLAGS_24BPP ≠ 0 then 24
      else if flags &&& CP_FLAGS_16BPP ≠ 0 then 16
      else if flags &&& CP_FLAGS_8BPP ≠ 0 then 8
      else bitsPerPixel fmt
    if bpp = 0 then none
    else if flags &&& (CP_FLAGS_LEGACY_DWORD ||| CP_FLAGS_PARAGRAPH |||
        CP_FLAGS_YMM ||| CP_FLAGS_ZMM ||| CP_FLAGS_PAGE4K) ≠ 0 then
      if flags &&& CP_FLAGS_PAGE4K ≠ 0 then
        let pitch := m64 (m64 (m64 (w * bpp) + 32767) / 32768 * 4096)
        some (pitch, m64 (pitch * h))
      else if flags &&& CP_FLAGS_ZMM ≠ 0 then
        let pitch := m64 (m64 (m64 (w * bpp) + 511) / 512 * 64)
        some (pitch, m64 (pitch * h))
      else if flags &&& CP_FLAGS_YMM ≠ 0 then
        let pitch := m64 (m64 (m64 (w * bpp) + 255) / 256 * 32)
        some (pitch, m64 (pitch * h))
      else if flags &&& CP_FLAGS_PARAGRAPH ≠ 0 then
        let pitch := m64 (m64 (m64 (w * bpp) + 127) / 128 * 16)
        some (pitch, m64 (pitch * h))
      else
        -- DWORD alignment
        let pitch := m64 (m64 (m64 (w * bpp) + 31) / 32 * 4)
        some (pitch, m64 (pitch * h))
    else
      -- default byte alignment
      let pitch := m64 (m64 (w * bpp) + 7) / 8
      some (pitch, m64 (pitch * h))

/-- Result of `ComputePitch`: `invalidArg` is the `E_INVALIDARG` return,
`overflow` the `HRESULT_E_ARITHMETIC_OVERFLOW` return (which zeroes both
out-parameters), `ok` the `S_OK` return with the two out-parameters. -/
inductive PitchResult where
  | invalidArg
  | overflow
  | ok (rowPitch slicePitch : Nat)
deriving Repr, DecidableEq

/-- `ComputePitch` on the 64-bit build: the `uint64_t` results are cast to
`size_t` unchanged; there is no overflow check (the source only
`static_assert`s that `size_t` is 8 bytes). -/
def ComputePitch64 (fmt w h flags : Nat) : PitchResult :=
  match computePitchRaw fmt w h flags with
  | none => .invalidArg
  | some (pitch, slice) => .ok pitch slice

/-- `ComputePitch` on the 32-bit build (`_M_IX86`/`_M_ARM` branch): values above
`UINT32_MAX` produce `HRESULT_E_ARITHMETIC_OVERFLOW` with both out-pitches
zeroed. -/
def ComputePitch32 (fmt w h flags : Nat) : PitchResult :=
  match computePitchRaw fmt w h flags with
  | none => .invalidArg
  | some (pitch, slice) =>
      if pitch > 4294967295 ∨ slice > 4294967295 then .overflow
      else .ok pitch slice

/-- One step of the mip-dimension shrink used throughout the source:
`if (x > 1) x >>= 1;`. -/
def halveDim (x : Nat) : Nat := if 1 < x then x >>> 1 else x

/-- Rewrite of `halveDim` in division form. -/
theorem halveDim_eq (x : Nat) : halveDim x = if 1 < x then x / 2 else x := by
  simp [halveDim, Nat.shiftRight_eq_div_pow]

theorem halveDim_le (x : Nat) : halveDim x ≤ x := by
  rw [halveDim_eq]; split <;> omega

/-- `CountMips`, fuelled so that the definition is structural (the loop
`while (height > 1 || width > 1)` terminates because `w + h` strictly
decreases; `countMips_eq` below recovers the loop equation). -/
def countMipsFuel : Nat → Nat → Nat → Nat
  | 0, _, _ => 1
  | fuel + 1, w, h =>
      if 1 < h ∨ 1 < w then countMipsFuel fuel (halveDim w) (halveDim h) + 1
      else 1

/-- `CountMips`: levels until both dimensions reach 1, counting the base. -/
def countMips (w h : Nat) : Nat := countMipsFuel (w + h) w h

theorem countMipsFuel_succ (fuel w h : Nat) :
    countMipsFuel (fuel + 1) w h =
      if 1 < h ∨ 1 < w then countMipsFuel fuel (halveDim w) (halveDim h) + 1
      else 1 := rfl

theorem halveDim_sum_le {w h n : Nat} (hc : 1 < h ∨ 1 < w) (hwh : w + h ≤ n + 1) :
    halveDim w + halveDim h ≤ n := by
  rw [halveDim_eq, halveDim_eq]
  by_cases h1 : 1 < w <;> by_cases h2 : 1 < h <;> simp [h1, h2] <;> omega

theorem countMipsFuel_stable :
    ∀ fuel w h, w + h ≤ fuel → countMipsFuel (fuel + 1) w h = countMipsFuel fuel w h := by
  intro fuel
  induction fuel with
  | zero =>
      intro w h hwh
      have hw : w = 0 := by omega
      have hh : h = 0 := by omega
      subst hw; subst hh
      simp [countMipsFuel]
  | succ n ih =>
      intro w h hwh
      rw [countMipsFuel_succ (n + 1) w h, countMipsFuel_succ n w h]
      split
      · next hc => rw [ih _ _ (halveDim_sum_le hc hwh)]
      · rfl

theorem countMipsFuel_ge :
    ∀ fuel w h, w + h ≤ fuel → countMipsFuel fuel w h = countMipsFuel (w + h) w h := by
  intro fuel
  induction fuel with
  | zero => intro w h hwh; have h0 : w + h = 0 := by omega
            rw [h0]
  | succ n ih =>
      intro w h hwh
      rcases Nat.lt_or_ge (w + h) (n + 1) with hlt | hge
      · have hle : w + h ≤ n := by omega
        rw [countMipsFuel_stable n w h hle, ih w h hle]
      · have he : w + h = n + 1 := by omega
        rw [he]

/-- The loop equation of `CountMips`. -/
theorem countMips_eq (w h : Nat) :
    countMips w h =
      if 1 < h ∨ 1 < w then countMips (halveDim w) (halveDim h) + 1 else 1 := by
  show countMipsFuel (w + h) w h = _
  split
  · next hc =>
      obtain ⟨k, hk⟩ : ∃ k, w + h = k + 1 := ⟨w + h - 1, by omega⟩
      rw [hk, countMipsFuel_succ k w h, if_pos hc]
      have hb : halveDim w + halveDim h ≤ k := halveDim_sum_le hc (by omega)
      rw [countMipsFuel_ge k _ _ hb]
      rfl
  · next hc =>
      cases hwh : w + h with
      | zero => simp [countMipsFuel]
      | succ k => rw [countMipsFuel_succ k w h, if_neg hc]

/-- `CountMips3D`, fuelled like `countMipsFuel`. -/
def countMips3DFuel : Nat → Nat → Nat → Nat → Nat
  | 0, _, _, _ => 1
  | fuel + 1, w, h, d =>
      if 1 < h ∨ 1 < w ∨ 1 < d then
        countMips3DFuel fuel (halveDim w) (halveDim h) (halveDim d) + 1
      else 1

/-- `CountMips3D`: levels until all three dimensions reach 1. -/
def countMips3D (w h d : Nat) : Nat := countMips3DFuel (w + h + d) w h d

/-- `CalculateMipLevels`: validate or derive a mip count for a 1D/2D texture
(`none` is the `false` return). -/
def calculateMipLevels (w h mipLevels : Nat) : Option Nat :=
  if 1 < mipLevels then
    if countMips w h < mipLevels then none else some mipLevels
  else if mipLevels = 0 then some (countMips w h)
  else some 1

/-- `CalculateMipLevels3D`. -/
def calculateMipLevels3D (w h d mipLevels : Nat) : Option Nat :=
  if 1 < mipLevels then
    if countMips3D w h d < mipLevels then none else some mipLevels
  else if mipLevels = 0 then some (countMips3D w h d)
  else some 1

example : countMips 4 4 = 3 := by decide
example : countMips 1 1 = 1 := by decide
example : countMips 16384 1 = 15 := by decide

-- TEX_DIMENSION codes (match D3D11_RESOURCE_DIMENSION).
def TEX_DIMENSION_TEXTURE1D : Nat := 2
def TEX_DIMENSION_TEXTURE2D : Nat := 3
def TEX_DIMENSION_TEXTURE3D : Nat := 4

def TEX_MISC_TEXTURECUBE : Nat := 0x4
def TEX_MISC2_ALPHA_MODE_MASK : Nat := 0x7

/-- `TexMetadata` (the `DXGI_FORMAT` and `TEX_DIMENSION` fields are carried as
their numeric codes). -/
structure TexMetadata where
  width : Nat
  height : Nat
  depth : Nat
  arraySize : Nat
  mipLevels : Nat
  miscFlags : Nat
  miscFlags2 : Nat
  format : Nat
  dimension : Nat
deriving Repr, DecidableEq

/-- `TexMetadata::IsCubemap`. -/
def TexMetadata.isCubemap (md : TexMetadata) : Bool :=
  md.miscFlags &&& TEX_MISC_TEXTURECUBE ≠ 0

/-- `TexMetadata::SetAlphaMode`. -/
def TexMetadata.setAlphaMode (md : TexMetadata) (mode : Nat) : TexMetadata :=
  { md with miscFlags2 :=
      (md.miscFlags2 &&& (4294967295 - TEX_MISC2_ALPHA_MODE_MASK)) ||| mode }

/-- The `for (level = 0; level < mip; ++level)` loop of
`TexMetadata::ComputeIndex`'s 3D branch: starting from `(index, d)`, repeatedly
`index += d; if (d > 1) d >>= 1;`.  `index` is `size_t` arithmetic, so the
addition is reduced modulo `2^64`. -/
def ci3dLoop : Nat → Nat → Nat → Nat × Nat
  | index, d, 0 => (index, d)
  | index, d, mip + 1 => ci3dLoop (m64 (index + d)) (halveDim d) mip

/-- `TexMetadata::ComputeIndex`: flat subresource index, or the `size_t(-1)`
sentinel (`SIZE_MAX64`) for out-of-range requests. -/
def TexMetadata.computeIndex (md : TexMetadata) (mip item slice : Nat) : Nat :=
  if md.mipLevels ≤ mip then SIZE_MAX64
  else if md.dimension = TEX_DIMENSION_TEXTURE1D ∨
          md.dimension = TEX_DIMENSION_TEXTURE2D then
    if 0 < slice then SIZE_MAX64
    else if md.arraySize ≤ item then SIZE_MAX64
    else m64 (item * md.mipLevels + mip)
  else if md.dimension = TEX_DIMENSION_TEXTURE3D then
    if 0 < item then SIZE_MAX64
    else
      let r := ci3dLoop 0 md.depth mip
      if r.2 ≤ slice then SIZE_MAX64
      else m64 (r.1 + slice)
  else SIZE_MAX64

/-- An entry of the `Image` array built by `SetupImageArray`; the `pixels`
pointer is represented as a byte offset from the start of the pixel buffer. -/
structure ImageDesc where
  width : Nat
  height : Nat
  format : Nat
  rowPitch : Nat
  slicePitch : Nat
  offset : Nat
deriving Repr, DecidableEq

/-- Inner mip loop of `DetermineImageArray`'s 1D/2D branch: returns
`(images added, exact sum of slice pitches)` for one array item, or `none` if
`ComputePitch` fails.  The running `uint64_t` total in the source wraps at each
addition; since `((a % 2^64) + b) % 2^64 = (a + b) % 2^64`, accumulating the
exact sum and reducing once at the end (in `DetermineImageArray`) is
equivalent. -/
def detMips2D (fmt cpFlags : Nat) : Nat → Nat → Nat → Option (Nat × Nat)
  | _, _, 0 => some (0, 0)
  | w, h, levels + 1 =>
      match ComputePitch64 fmt w h cpFlags with
      | .ok _ slicePitch =>
          match detMips2D fmt cpFlags (halveDim w) (halveDim h) levels with
          | some (n, total) => some (n + 1, slicePitch + total)
          | none => none
      | _ => none

/-- Outer item loop of `DetermineImageArray`'s 1D/2D branch (each item restarts
from the full dimensions). -/
def detItems2D (fmt cpFlags w h levels : Nat) : Nat → Option (Nat × Nat)
  | 0 => some (0, 0)
  | items + 1 =>
      match detMips2D fmt cpFlags w h levels with
      | some (n1, t1) =>
          match detItems2D fmt cpFlags w h levels items with
          | some (n2, t2) => some (n1 + n2, t1 + t2)
          | none => none
      | none => none

/-- Mip loop of `DetermineImageArray`'s 3D branch: each level contributes its
slice pitch `d` times, then all three dimensions shrink. -/
def detMips3D (fmt cpFlags : Nat) : Nat → Nat → Nat → Nat → Option (Nat × Nat)
  | _, _, _, 0 => some (0, 0)
  | w, h, d, levels + 1 =>
      match ComputePitch64 fmt w h cpFlags with
      | .ok _ slicePitch =>
          match detMips3D fmt cpFlags (halveDim w) (halveDim h) (halveDim d) levels with
          | some (n, total) => some (d + n, d * slicePitch + total)
          | none => none
      | _ => none

/-- `DetermineImageArray`: `(nImages, pixelSize)` or `none` for the `false`
return.  On the 64-bit build the final `static_cast<size_t>` is the identity,
so the only reduction is the `uint64_t` wrap of the accumulator (`m64` of the
exact sum, see `detMips2D`). -/
def DetermineImageArray (md : TexMetadata) (cpFlags : Nat) : Option (Nat × Nat) :=
  if md.dimension = TEX_DIMENSION_TEXTURE1D ∨
     md.dimension = TEX_DIMENSION_TEXTURE2D then
    match detItems2D md.format cpFlags md.width md.height md.mipLevels md.arraySize with
    | some (n, total) => some (n, m64 total)
    | none => none
  else if md.dimension = TEX_DIMENSION_TEXTURE3D then
    match detMips3D md.format cpFlags md.width md.height md.depth md.mipLevels with
    | some (n, total) => some (n, m64 total)
    | none => none
  else none

/-- Mip loop of `SetupImageArray`'s 1D/2D branch.  `index`/`cursor` mirror the
source's `index` counter and `pixels` pointer; the `cursor > pixelSize` test is
the `pixels > pEndBits` hard bounds check (performed after advancing). -/
def setupMips2D (fmt cpFlags pixelSize nImages : Nat) :
    Nat → Nat → Nat → Nat → Nat → Option (List ImageDesc × Nat × Nat)
  | _, _, 0, index, cursor => some ([], index, cursor)
  | w, h, levels + 1, index, cursor =>
      if nImages ≤ index then none
      else
        match ComputePitch64 fmt w h cpFlags with
        | .ok rowPitch slicePitch =>
            let img : ImageDesc :=
              { width := w, height := h, format := fmt,
                rowPitch := rowPitch, slicePitch := slicePitch, offset := cursor }
            let cursor2 := cursor + slicePitch
            if pixelSize < cursor2 then none
            else
              match setupMips2D fmt cpFlags pixelSize nImages
                  (halveDim w) (halveDim h) levels (index + 1) cursor2 with
              | some (l, i, c) => some (img :: l, i, c)
              | none => none
        | _ => none

/-- Item loop of `SetupImageArray`'s 1D/2D branch. -/
def setupItems2D (fmt cpFlags pixelSize nImages w h levels : Nat) :
    Nat → Nat → Nat → Option (List ImageDesc × Nat × Nat)
  | 0, index, cursor => some ([], index, cursor)
  | items + 1, index, cursor =>
      match setupMips2D fmt cpFlags pixelSize nImages w h levels index cursor with
      | some (l1, i1, c1) =>
          match setupItems2D fmt cpFlags pixelSize nImages w h levels items i1 c1 with
          | some (l2, i2, c2) => some (l1 ++ l2, i2, c2)
          | none => none
      | none => none

/-- Slice loop of `SetupImageArray`'s 3D branch (row/slice pitch fixed for the
whole level). -/
def setupSlices3D (fmt w h rowPitch slicePitch pixelSize nImages : Nat) :
    Nat → Nat → Nat → Option (List ImageDesc × Nat × Nat)
  | 0, index, cursor => some ([], index, cursor)
  | slices + 1, index, cursor =>
      if nImages ≤ index then none
      else
        let img : ImageDesc :=
          { width := w, height := h, format := fmt,
            rowPitch := rowPitch, slicePitch := slicePitch, offset := cursor }
        let cursor2 := cursor + slicePitch
        if pixelSize < cursor2 then none
        else
          match setupSlices3D fmt w h rowPitch slicePitch pixelSize nImages
              slices (index + 1) cursor2 with
          | some (l, i, c) => some (img :: l, i, c)
          | none => none

/-- Mip loop of `SetupImageArray`'s 3D branch. -/
def setupMips3D (fmt cpFlags pixelSize nImages : Nat) :
    Nat → Nat → Nat → Nat → Nat → Nat → Option (List ImageDesc × Nat × Nat)
  | _, _, _, 0, index, cursor => some ([], index, cursor)
  | w, h, d, levels + 1, index, cursor =>
      match ComputePitch64 fmt w h cpFlags with
      | .ok rowPitch slicePitch =>
          match setupSlices3D fmt w h rowPitch slicePitch pixelSize nImages
              d index cursor with
          | some (l1, i1, c1) =>
              match setupMips3D fmt cpFlags pixelSize nImages
                  (halveDim w) (halveDim h) (halveDim d) levels i1 c1 with
              | some (l2, i2, c2) => some (l1 ++ l2, i2, c2)
              | none => none
          | none => none
      | _ => none

/-- `SetupImageArray`: slices the `pixelSize`-byte buffer into `ImageDesc`s;
returns the image list and the final cursor position, or `none` for the `false`
return. -/
def SetupImageArray (pixelSize : Nat) (md : TexMetadata) (cpFlags nImages : Nat) :
    Option (List ImageDesc × Nat) :=
  if md.dimension = TEX_DIMENSION_TEXTURE1D ∨
     md.dimension = TEX_DIMENSION_TEXTURE2D then
    if md.arraySize = 0 ∨ md.mipLevels = 0 then none
    else
      match setupItems2D md.format cpFlags pixelSize nImages
          md.width md.height md.mipLevels md.arraySize 0 0 with
      | some (l, _, c) => some (l, c)
      | none => none
  else if md.dimension = TEX_DIMENSION_TEXTURE3D then
    if md.mipLevels = 0 ∨ md.depth = 0 then none
    else
      match setupMips3D md.format cpFlags pixelSize nImages
          md.width md.height md.depth md.mipLevels 0 0 with
      | some (l, _, c) => some (l, c)
      | none => none
  else none

-- HRESULT codes (32-bit values; FAILED is the sign bit, value ≥ 2^31).
def S_OK : Nat := 0
def E_FAIL : Nat := 0x80004005
def E_INVALIDARG : Nat := 0x80070057
def E_OUTOFMEMORY : Nat := 0x8007000E
def HRESULT_E_ARITHMETIC_OVERFLOW : Nat := 0x80070216

/-- `FAILED(hr)` for an HRESULT carried as its unsigned 32-bit value. -/
def FAILED (hr : Nat) : Bool := 2147483648 ≤ hr

/-- `ScratchImage::Initialize`: metadata validation, mip-level resolution,
layout planning and buffer slicing.  Allocation itself always succeeds in this
model (`new (std::nothrow)` / `_aligned_malloc` failures, which produce
`E_OUTOFMEMORY`, are outside it).  Returns the HRESULT together with, on
success, the stored metadata and the planned `(nImages, pixelSize, images)`. -/
def ScratchInitialize (md : TexMetadata) (flags : Nat) :
    Nat × Option (TexMetadata × Nat × Nat × List ImageDesc) :=
  if ¬ isValidFmt md.format then (E_INVALIDARG, none)
  else if isPalettized md.format then (E_FAIL, none)
  else
    let mipResult : Option Nat :=
      if md.dimension = TEX_DIMENSION_TEXTURE1D then
        if md.width = 0 ∨ md.height ≠ 1 ∨ md.depth ≠ 1 ∨ md.arraySize = 0 then none
        else calculateMipLevels md.width 1 md.mipLevels
      else if md.dimension = TEX_DIMENSION_TEXTURE2D then
        if md.width = 0 ∨ md.height = 0 ∨ md.depth ≠ 1 ∨ md.arraySize = 0 then none
        else if md.isCubemap ∧ md.arraySize % 6 ≠ 0 then none
        else calculateMipLevels md.width md.height md.mipLevels
      else if md.dimension = TEX_DIMENSION_TEXTURE3D then
        if md.width = 0 ∨ md.height = 0 ∨ md.depth = 0 ∨ md.arraySize ≠ 1 then none
        else calculateMipLevels3D md.width md.height md.depth md.mipLevels
      else none
    match mipResult with
    | none =>
        if md.dimension = TEX_DIMENSION_TEXTURE1D ∨
           md.dimension = TEX_DIMENSION_TEXTURE2D ∨
           md.dimension = TEX_DIMENSION_TEXTURE3D then (E_INVALIDARG, none)
        else (E_FAIL, none)
    | some mipLevels =>
        let meta : TexMetadata := { md with mipLevels := mipLevels }
        match DetermineImageArray meta flags with
        | none => (E_FAIL, none)
        | some (nimages, pixelSize) =>
            match SetupImageArray pixelSize meta flags nimages with
            | none => (E_FAIL, none)
            | some (images, _) => (S_OK, some (meta, nimages, pixelSize, images))

example :
    ScratchInitialize
      { width := 1, height := 1, depth := 1, arraySize := 1, mipLevels := 2,
        miscFlags := 0, miscFlags2 := 0,
        format := DXGI_FORMAT_R8G8B8A8_UNORM,
        dimension := TEX_DIMENSION_TEXTURE2D } 0 = (E_INVALIDARG, none) := by
  decide

example :
    (ScratchInitialize
      { width := 4, height := 4, depth := 1, arraySize := 1, mipLevels := 3,
        miscFlags := 0, miscFlags2 := 0,
        format := DXGI_FORMAT_BC1_UNORM,
        dimension := TEX_DIMENSION_TEXTURE2D } 0).1 = S_OK := by
  decide

-- DDS pixel-format flag bits.
def DDS_FOURCC : Nat := 0x00000004
def DDS_RGB : Nat := 0x00000040
def DDS_RGBA : Nat := 0x00000041
def DDS_LUMINANCE : Nat := 0x00020000
def DDS_LUMINANCEA : Nat := 0x00020001
def DDS_ALPHAPIXELS : Nat := 0x00000001
def DDS_ALPHA : Nat := 0x00000002
def DDS_PAL8 : Nat := 0x00000020
def DDS_PAL8A : Nat := 0x00000021
def DDS_BUMPDUDV : Nat := 0x00080000

-- CONVERSION_FLAGS bits.
def CONV_FLAGS_EXPAND : Nat := 0x1
def CONV_FLAGS_NOALPHA : Nat := 0x2
def CONV_FLAGS_SWIZZLE : Nat := 0x4
def CONV_FLAGS_PAL8 : Nat := 0x8
def CONV_FLAGS_888 : Nat := 0x10
def CONV_FLAGS_565 : Nat := 0x20
def CONV_FLAGS_5551 : Nat := 0x40
def CONV_FLAGS_4444 : Nat := 0x80
def CONV_FLAGS_44 : Nat := 0x100
def CONV_FLAGS_332 : Nat := 0x200
def CONV_FLAGS_8332 : Nat := 0x400
def CONV_FLAGS_A8P8 : Nat := 0x800
def CONV_FLAGS_DX10 : Nat := 0x10000
def CONV_FLAGS_PMALPHA : Nat := 0x20000

/-- `MAKEFOURCC`. -/
def mkFourCC (a b c d : Nat) : Nat := a + b * 256 + c * 65536 + d * 16777216

def FOURCC_DX10 : Nat := mkFourCC 68 88 49 48   -- D X 1 0
def FOURCC_NVTT : Nat := mkFourCC 78 86 84 84   -- N V T T

/-- `DDS_PIXELFORMAT`. -/
structure DDSPixelFormat where
  size : Nat
  flags : Nat
  fourCC : Nat
  RGBBitCount : Nat
  RBitMask : Nat
  GBitMask : Nat
  BBitMask : Nat
  ABitMask : Nat
deriving Repr, DecidableEq

/-- An entry of `g_LegacyDDSMap`. -/
structure LegacyDDS where
  format : Nat
  convFlags : Nat
  ddpf : DDSPixelFormat
deriving Repr, DecidableEq

/-- Shorthand for building a `DDS_PIXELFORMAT` literal (`size` is always
`sizeof(DDS_PIXELFORMAT)` = 32 in the table). -/
def mkDDPF (flags fourCC bits r g b a : Nat) : DDSPixelFormat :=
  { size := 32, flags := flags, fourCC := fourCC, RGBBitCount := bits,
    RBitMask := r, GBitMask := g, BBitMask := b, ABitMask := a }

def DDSPF_DXT1 : DDSPixelFormat := mkDDPF DDS_FOURCC (mkFourCC 68 88 84 49) 0 0 0 0 0
def DDSPF_DXT2 : DDSPixelFormat := mkDDPF DDS_FOURCC (mkFourCC 68 88 84 50) 0 0 0 0 0
def DDSPF_DXT3 : DDSPixelFormat := mkDDPF DDS_FOURCC (mkFourCC 68 88 84 51) 0 0 0 0 0
def DDSPF_DXT4 : DDSPixelFormat := mkDDPF DDS_FOURCC (mkFourCC 68 88 84 52) 0 0 0 0 0
def DDSPF_DXT5 : DDSPixelFormat := mkDDPF DDS_FOURCC (mkFourCC 68 88 84 53) 0 0 0 0 0
def DDSPF_BC4_UNORM : DDSPixelFormat := mkDDPF DDS_FOURCC (mkFourCC 66 67 52 85) 0 0 0 0 0
def DDSPF_BC4_SNORM : DDSPixelFormat := mkDDPF DDS_FOURCC (mkFourCC 66 67 52 83) 0 0 0 0 0
def DDSPF_BC5_UNORM : DDSPixelFormat := mkDDPF DDS_FOURCC (mkFourCC 66 67 53 85) 0 0 0 0 0
def DDSPF_BC5_SNORM : DDSPixelFormat := mkDDPF DDS_FOURCC (mkFourCC 66 67 53 83) 0 0 0 0 0
def DDSPF_R8G8_B8G8 : DDSPixelFormat := mkDDPF DDS_FOURCC (mkFourCC 82 71 66 71) 0 0 0 0 0
def DDSPF_G8R8_G8B8 : DDSPixelFormat := mkDDPF DDS_FOURCC (mkFourCC 71 82 71 66) 0 0 0 0 0
def DDSPF_YUY2 : DDSPixelFormat := mkDDPF DDS_FOURCC (mkFourCC 89 85 89 50) 0 0 0 0 0
def DDSPF_UYVY : DDSPixelFormat := mkDDPF DDS_FOURCC (mkFourCC 85 89 86 89) 0 0 0 0 0
def DDSPF_A8R8G8B8 : DDSPixelFormat :=
  mkDDPF DDS_RGBA 0 32 0x00ff0000 0x0000ff00 0x000000ff 0xff000000
def DDSPF_X8R8G8B8 : DDSPixelFormat :=
  mkDDPF DDS_RGB 0 32 0x00ff0000 0x0000ff00 0x000000ff 0
def DDSPF_A8B8G8R8 : DDSPixelFormat :=
  mkDDPF DDS_RGBA 0 32 0x000000ff 0x0000ff00 0x00ff0000 0xff000000
def DDSPF_X8B8G8R8 : DDSPixelFormat :=
  mkDDPF DDS_RGB 0 32 0x000000ff 0x0000ff00 0x00ff0000 0
def DDSPF_G16R16 : DDSPixelFormat := mkDDPF DDS_RGB 0 32 0x0000ffff 0xffff0000 0 0
def DDSPF_R5G6B5 : DDSPixelFormat := mkDDPF DDS_RGB 0 16 0xf800 0x07e0 0x001f 0
def DDSPF_A1R5G5B5 : DDSPixelFormat := mkDDPF DDS_RGBA 0 16 0x7c00 0x03e0 0x001f 0x8000
def DDSPF_X1R5G5B5 : DDSPixelFormat := mkDDPF DDS_RGB 0 16 0x7c00 0x03e0 0x001f 0
def DDSPF_A4R4G4B4 : DDSPixelFormat := mkDDPF DDS_RGBA 0 16 0x0f00 0x00f0 0x000f 0xf000
def DDSPF_X4R4G4B4 : DDSPixelFormat := mkDDPF DDS_RGB 0 16 0x0f00 0x00f0 0x000f 0
def DDSPF_R8G8B8 : DDSPixelFormat := mkDDPF DDS_RGB 0 24 0xff0000 0x00ff00 0x0000ff 0
def DDSPF_A8R3G3B2 : DDSPixelFormat := mkDDPF DDS_RGBA 0 16 0x00e0 0x001c 0x0003 0xff00
def DDSPF_R3G3B2 : DDSPixelFormat := mkDDPF DDS_RGB 0 8 0xe0 0x1c 0x03 0
def DDSPF_A4L4 : DDSPixelFormat := mkDDPF DDS_LUMINANCEA 0 8 0x0f 0 0 0xf0
def DDSPF_L8 : DDSPixelFormat := mkDDPF DDS_LUMINANCE 0 8 0xff 0 0 0
def DDSPF_L16 : DDSPixelFormat := mkDDPF DDS_LUMINANCE 0 16 0xffff 0 0 0
def DDSPF_A8L8 : DDSPixelFormat := mkDDPF DDS_LUMINANCEA 0 16 0x00ff 0 0 0xff00
def DDSPF_A8L8_ALT : DDSPixelFormat := mkDDPF DDS_LUMINANCEA 0 8 0x00ff 0 0 0xff00
def DDSPF_L8_NVTT1 : DDSPixelFormat := mkDDPF DDS_RGB 0 8 0xff 0 0 0
def DDSPF_L16_NVTT1 : DDSPixelFormat := mkDDPF DDS_RGB 0 16 0xffff 0 0 0
def DDSPF_A8L8_NVTT1 : DDSPixelFormat := mkDDPF DDS_RGBA 0 16 0x00ff 0 0 0xff00
def DDSPF_A8 : DDSPixelFormat := mkDDPF DDS_ALPHA 0 8 0 0 0 0xff
def DDSPF_V8U8 : DDSPixelFormat := mkDDPF DDS_BUMPDUDV 0 16 0x00ff 0xff00 0 0
def DDSPF_Q8W8V8U8 : DDSPixelFormat :=
  mkDDPF DDS_BUMPDUDV 0 32 0x000000ff 0x0000ff00 0x00ff0000 0xff000000
def DDSPF_V16U16 : DDSPixelFormat := mkDDPF DDS_BUMPDUDV 0 32 0x0000ffff 0xffff0000 0 0
def DDSPF_A2R10G10B10 : DDSPixelFormat :=
  mkDDPF DDS_RGBA 0 32 0x000003ff 0x000ffc00 0x3ff00000 0xc0000000
def DDSPF_A2B10G10R10 : DDSPixelFormat :=
  mkDDPF DDS_RGBA 0 32 0x3ff00000 0x000ffc00 0x000003ff 0xc0000000

/-- `g_LegacyDDSMap`, in source order (first match wins). -/
def legacyDDSMap : List LegacyDDS := [
  ⟨DXGI_FORMAT_BC1_UNORM, 0, DDSPF_DXT1⟩,
  ⟨DXGI_FORMAT_BC2_UNORM, 0, DDSPF_DXT3⟩,
  ⟨DXGI_FORMAT_BC3_UNORM, 0, DDSPF_DXT5⟩,
  ⟨DXGI_FORMAT_BC2_UNORM, CONV_FLAGS_PMALPHA, DDSPF_DXT2⟩,
  ⟨DXGI_FORMAT_BC3_UNORM, CONV_FLAGS_PMALPHA, DDSPF_DXT4⟩,
  ⟨DXGI_FORMAT_BC4_UNORM, 0, DDSPF_BC4_UNORM⟩,
  ⟨DXGI_FORMAT_BC4_SNORM, 0, DDSPF_BC4_SNORM⟩,
  ⟨DXGI_FORMAT_BC5_UNORM, 0, DDSPF_BC5_UNORM⟩,
  ⟨DXGI_FORMAT_BC5_SNORM, 0, DDSPF_BC5_SNORM⟩,
  ⟨DXGI_FORMAT_BC4_UNORM, 0, mkDDPF DDS_FOURCC (mkFourCC 65 84 73 49) 0 0 0 0 0⟩,
  ⟨DXGI_FORMAT_BC5_UNORM, 0, mkDDPF DDS_FOURCC (mkFourCC 65 84 73 50) 0 0 0 0 0⟩,
  ⟨DXGI_FORMAT_BC6H_UF16, 0, mkDDPF DDS_FOURCC (mkFourCC 66 67 54 72) 0 0 0 0 0⟩,
  ⟨DXGI_FORMAT_BC7_UNORM, 0, mkDDPF DDS_FOURCC (mkFourCC 66 67 55 76) 0 0 0 0 0⟩,
  ⟨DXGI_FORMAT_BC7_UNORM, 0, mkDDPF DDS_FOURCC (mkFourCC 66 67 55 0) 0 0 0 0 0⟩,
  ⟨DXGI_FORMAT_R8G8_B8G8_UNORM, 0, DDSPF_R8G8_B8G8⟩,
  ⟨DXGI_FORMAT_G8R8_G8B8_UNORM, 0, DDSPF_G8R8_G8B8⟩,
  ⟨DXGI_FORMAT_B8G8R8A8_UNORM, 0, DDSPF_A8R8G8B8⟩,
  ⟨DXGI_FORMAT_B8G8R8X8_UNORM, 0, DDSPF_X8R8G8B8⟩,
  ⟨DXGI_FORMAT_R8G8B8A8_UNORM, 0, DDSPF_A8B8G8R8⟩,
  ⟨DXGI_FORMAT_R8G8B8A8_UNORM, CONV_FLAGS_NOALPHA, DDSPF_X8B8G8R8⟩,
  ⟨DXGI_FORMAT_R16G16_UNORM, 0, DDSPF_G16R16⟩,
  ⟨DXGI_FORMAT_R10G10B10A2_UNORM, CONV_FLAGS_SWIZZLE, DDSPF_A2R10G10B10⟩,
  ⟨DXGI_FORMAT_R10G10B10A2_UNORM, 0, DDSPF_A2B10G10R10⟩,
  ⟨DXGI_FORMAT_R8G8B8A8_UNORM,
    CONV_FLAGS_EXPAND ||| CONV_FLAGS_NOALPHA ||| CONV_FLAGS_888, DDSPF_R8G8B8⟩,
  ⟨DXGI_FORMAT_B5G6R5_UNORM, CONV_FLAGS_565, DDSPF_R5G6B5⟩,
  ⟨DXGI_FORMAT_B5G5R5A1_UNORM, CONV_FLAGS_5551, DDSPF_A1R5G5B5⟩,
  ⟨DXGI_FORMAT_B5G5R5A1_UNORM, CONV_FLAGS_5551 ||| CONV_FLAGS_NOALPHA, DDSPF_X1R5G5B5⟩,
  ⟨DXGI_FORMAT_R8G8B8A8_UNORM, CONV_FLAGS_EXPAND ||| CONV_FLAGS_8332, DDSPF_A8R3G3B2⟩,
  ⟨DXGI_FORMAT_B5G6R5_UNORM, CONV_FLAGS_EXPAND ||| CONV_FLAGS_332, DDSPF_R3G3B2⟩,
  ⟨DXGI_FORMAT_R8_UNORM, 0, DDSPF_L8⟩,
  ⟨DXGI_FORMAT_R16_UNORM, 0, DDSPF_L16⟩,
  ⟨DXGI_FORMAT_R8G8_UNORM, 0, DDSPF_A8L8⟩,
  ⟨DXGI_FORMAT_R8G8_UNORM, 0, DDSPF_A8L8_ALT⟩,
  ⟨DXGI_FORMAT_R8_UNORM, 0, DDSPF_L8_NVTT1⟩,
  ⟨DXGI_FORMAT_R16_UNORM, 0, DDSPF_L16_NVTT1⟩,
  ⟨DXGI_FORMAT_R8G8_UNORM, 0, DDSPF_A8L8_NVTT1⟩,
  ⟨DXGI_FORMAT_A8_UNORM, 0, DDSPF_A8⟩,
  ⟨DXGI_FORMAT_R16G16B16A16_UNORM, 0, mkDDPF DDS_FOURCC 36 0 0 0 0 0⟩,
  ⟨DXGI_FORMAT_R16G16B16A16_SNORM, 0, mkDDPF DDS_FOURCC 110 0 0 0 0 0⟩,
  ⟨DXGI_FORMAT_R16_FLOAT, 0, mkDDPF DDS_FOURCC 111 0 0 0 0 0⟩,
  ⟨DXGI_FORMAT_R16G16_FLOAT, 0, mkDDPF DDS_FOURCC 112 0 0 0 0 0⟩,
  ⟨DXGI_FORMAT_R16G16B16A16_FLOAT, 0, mkDDPF DDS_FOURCC 113 0 0 0 0 0⟩,
  ⟨DXGI_FORMAT_R32_FLOAT, 0, mkDDPF DDS_FOURCC 114 0 0 0 0 0⟩,
  ⟨DXGI_FORMAT_R32G32_FLOAT, 0, mkDDPF DDS_FOURCC 115 0 0 0 0 0⟩,
  ⟨DXGI_FORMAT_R32G32B32A32_FLOAT, 0, mkDDPF DDS_FOURCC 116 0 0 0 0 0⟩,
  ⟨DXGI_FORMAT_R32_FLOAT, 0, mkDDPF DDS_RGB 0 32 0xffffffff 0 0 0⟩,
  ⟨DXGI_FORMAT_R8G8B8A8_UNORM,
    CONV_FLAGS_EXPAND ||| CONV_FLAGS_PAL8 ||| CONV_FLAGS_A8P8,
    mkDDPF DDS_PAL8A 0 16 0 0 0 0⟩,
  ⟨DXGI_FORMAT_R8G8B8A8_UNORM, CONV_FLAGS_EXPAND ||| CONV_FLAGS_PAL8,
    mkDDPF DDS_PAL8 0 8 0 0 0 0⟩,
  ⟨DXGI_FORMAT_B4G4R4A4_UNORM, CONV_FLAGS_4444, DDSPF_A4R4G4B4⟩,
  ⟨DXGI_FORMAT_B4G4R4A4_UNORM, CONV_FLAGS_NOALPHA ||| CONV_FLAGS_4444, DDSPF_X4R4G4B4⟩,
  ⟨DXGI_FORMAT_B4G4R4A4_UNORM, CONV_FLAGS_EXPAND ||| CONV_FLAGS_44, DDSPF_A4L4⟩,
  ⟨DXGI_FORMAT_YUY2, 0, DDSPF_YUY2⟩,
  ⟨DXGI_FORMAT_YUY2, CONV_FLAGS_SWIZZLE, DDSPF_UYVY⟩,
  ⟨DXGI_FORMAT_R8G8_SNORM, 0, DDSPF_V8U8⟩,
  ⟨DXGI_FORMAT_R8G8B8A8_SNORM, 0, DDSPF_Q8W8V8U8⟩,
  ⟨DXGI_FORMAT_R16G16_SNORM, 0, DDSPF_V16U16⟩]

/-- The per-entry matching test inside `GetDXGIFormat`'s linear scan
(`ddpfFlags` is the flags word after the NVTT adjustment; the other fields are
compared from the raw `ddpf`). -/
def legacyEntryMatches (ddpfFlags : Nat) (ddpf : DDSPixelFormat)
    (entry : DDSPixelFormat) : Bool :=
  if ddpfFlags &&& DDS_FOURCC ≠ 0 ∧ entry.flags &&& DDS_FOURCC ≠ 0 then
    ddpf.fourCC == entry.fourCC
  else if ddpfFlags = entry.flags then
    if entry.flags &&& DDS_PAL8 ≠ 0 then
      ddpf.RGBBitCount == entry.RGBBitCount
    else if entry.flags &&& DDS_ALPHA ≠ 0 then
      ddpf.RGBBitCount == entry.RGBBitCount && ddpf.ABitMask == entry.ABitMask
    else if entry.flags &&& DDS_LUMINANCE ≠ 0 then
      if entry.flags &&& DDS_ALPHAPIXELS ≠ 0 then
        ddpf.RGBBitCount == entry.RGBBitCount && ddpf.RBitMask == entry.RBitMask &&
        ddpf.ABitMask == entry.ABitMask
      else
        ddpf.RGBBitCount == entry.RGBBitCount && ddpf.RBitMask == entry.RBitMask
    else if entry.flags &&& DDS_BUMPDUDV ≠ 0 then
      ddpf.RGBBitCount == entry.RGBBitCount && ddpf.RBitMask == entry.RBitMask &&
      ddpf.GBitMask == entry.GBitMask && ddpf.BBitMask == entry.BBitMask &&
      ddpf.ABitMask == entry.ABitMask
    else if ddpf.RGBBitCount == entry.RGBBitCount then
      if entry.flags &&& DDS_ALPHAPIXELS ≠ 0 then
        ddpf.RBitMask == entry.RBitMask && ddpf.GBitMask == entry.GBitMask &&
        ddpf.BBitMask == entry.BBitMask && ddpf.ABitMask == entry.ABitMask
      else
        ddpf.RBitMask == entry.RBitMask && ddpf.GBitMask == entry.GBitMask &&
        ddpf.BBitMask == entry.BBitMask
    else false
  else false

/-- `MakeSRGB`. -/
def MakeSRGB (fmt : Nat) : Nat :=
  if fmt = DXGI_FORMAT_R8G8B8A8_UNORM then DXGI_FORMAT_R8G8B8A8_UNORM_SRGB
  else if fmt = DXGI_FORMAT_BC1_UNORM then DXGI_FORMAT_BC1_UNORM_SRGB
  else if fmt = DXGI_FORMAT_BC2_UNORM then DXGI_FORMAT_BC2_UNORM_SRGB
  else if fmt = DXGI_FORMAT_BC3_UNORM then DXGI_FORMAT_BC3_UNORM_SRGB
  else if fmt = DXGI_FORMAT_B8G8R8A8_UNORM then DXGI_FORMAT_B8G8R8A8_UNORM_SRGB
  else if fmt = DXGI_FORMAT_B8G8R8X8_UNORM then DXGI_FORMAT_B8G8R8X8_UNORM_SRGB
  else if fmt = DXGI_FORMAT_BC7_UNORM then DXGI_FORMAT_BC7_UNORM_SRGB
  else fmt

/-- `GetDXGIFormat`: legacy pixel-format resolution.  `reserved1at9` is
`hdr.reserved1[9]` (the NVTT producer marker).  Returns the resolved format
(`DXGI_FORMAT_UNKNOWN` = 0 if no table entry matches) and the new value of the
in/out `convFlags` (overwritten with the entry's flags on a match, left
unchanged otherwise). -/
def GetDXGIFormat (reserved1at9 : Nat) (ddpf : DDSPixelFormat)
    (convFlags : Nat) : Nat × Nat :=
  let ddpfFlags :=
    if reserved1at9 = FOURCC_NVTT then ddpf.flags &&& 0x3FFFFFFF
    else ddpf.flags
  match legacyDDSMap.find? (fun e => legacyEntryMatches ddpfFlags ddpf e.ddpf) with
  | none => (DXGI_FORMAT_UNKNOWN, convFlags)
  | some entry =>
      let format :=
        if reserved1at9 = FOURCC_NVTT ∧ ddpf.flags &&& 0x40000000 ≠ 0 then
          MakeSRGB entry.format
        else entry.format
      (format, entry.convFlags)

/-- Little-endian 32-bit read at byte offset `off` (bytes past the end of the
buffer read as 0, matching the zero-initialized header array of
`LoadFromDDSFile`). -/
def readU32 (src : List Nat) (off : Nat) : Nat :=
  src.getD off 0 + src.getD (off + 1) 0 * 256 + src.getD (off + 2) 0 * 65536 +
    src.getD (off + 3) 0 * 16777216

/-- The `DDS_PIXELFORMAT` sub-struct embedded at byte offset 76 of the file
(magic 0..3, `DDS_HEADER` 4..127). -/
def ddpfOfBytes (src : List Nat) : DDSPixelFormat :=
  { size := readU32 src 76, flags := readU32 src 80, fourCC := readU32 src 84,
    RGBBitCount := readU32 src 88, RBitMask := readU32 src 92,
    GBitMask := readU32 src 96, BBitMask := readU32 src 100,
    ABitMask := readU32 src 104 }

def DDS_MAGIC : Nat := 0x20534444
def DDS_HEIGHT : Nat := 0x00000002
def DDS_HEADER_FLAGS_VOLUME : Nat := 0x00800000
def DDS_CUBEMAP : Nat := 0x00000200
def DDS_CUBEMAP_ALLFACES : Nat := 0xFE00

/-- The DX10-extension branch of `DecodeDDSHeader` (extension header at byte
offset 128; `mipLevels` is the already-defaulted mip count). -/
def decodeHeaderDX10 (src : List Nat) (size mipLevels convFlags0 : Nat) :
    Option (TexMetadata × Nat) :=
  if size < 148 then none
  else
    let hFlags := readU32 src 8
    let convFlags1 := convFlags0 ||| CONV_FLAGS_DX10
    let arraySize := readU32 src 140
    if arraySize = 0 then none
    else
      let fmt := readU32 src 128
      if ¬ isValidFmt fmt ∨ isPalettized fmt then none
      else
        let miscFlag := readU32 src 136
        let miscFlagsBase := miscFlag &&& (4294967295 - TEX_MISC_TEXTURECUBE)
        let miscFlags2 := readU32 src 144
        let rd := readU32 src 132
        let base :=
          if rd = 2 then  -- DDS_DIMENSION_TEXTURE1D
            if hFlags &&& DDS_HEIGHT ≠ 0 ∧ readU32 src 12 ≠ 1 then none
            else some (TexMetadata.mk (readU32 src 16) 1 1 arraySize
              mipLevels miscFlagsBase miscFlags2 fmt TEX_DIMENSION_TEXTURE1D)
          else if rd = 3 then  -- DDS_DIMENSION_TEXTURE2D
            if miscFlag &&& TEX_MISC_TEXTURECUBE ≠ 0 then
              some (TexMetadata.mk (readU32 src 16) (readU32 src 12) 1
                (arraySize * 6) mipLevels (miscFlagsBase ||| TEX_MISC_TEXTURECUBE)
                miscFlags2 fmt TEX_DIMENSION_TEXTURE2D)
            else
              some (TexMetadata.mk (readU32 src 16) (readU32 src 12) 1
                arraySize mipLevels miscFlagsBase miscFlags2 fmt
                TEX_DIMENSION_TEXTURE2D)
          else if rd = 4 then  -- DDS_DIMENSION_TEXTURE3D
            if hFlags &&& DDS_HEADER_FLAGS_VOLUME = 0 then none
            else if 1 < arraySize then none
            else some (TexMetadata.mk (readU32 src 16) (readU32 src 12)
              (readU32 src 24) arraySize mipLevels miscFlagsBase miscFlags2
              fmt TEX_DIMENSION_TEXTURE3D)
          else none
        base.map (fun md => (md, convFlags1))

/-- The legacy (no extension header) branch of `DecodeDDSHeader`. -/
def decodeHeaderLegacy (src : List Nat) (mipLevels convFlags0 : Nat) :
    Option (TexMetadata × Nat) :=
  let hFlags := readU32 src 8
  let base :=
    if hFlags &&& DDS_HEADER_FLAGS_VOLUME ≠ 0 then
      some (TexMetadata.mk (readU32 src 16) (readU32 src 12) (readU32 src 24)
        1 mipLevels 0 0 0 TEX_DIMENSION_TEXTURE3D)
    else
      let caps2 := readU32 src 112
      if caps2 &&& DDS_CUBEMAP ≠ 0 then
        if caps2 &&& DDS_CUBEMAP_ALLFACES ≠ DDS_CUBEMAP_ALLFACES then none
        else some (TexMetadata.mk (readU32 src 16) (readU32 src 12) 1 6
          mipLevels TEX_MISC_TEXTURECUBE 0 0 TEX_DIMENSION_TEXTURE2D)
      else some (TexMetadata.mk (readU32 src 16) (readU32 src 12) 1 1
        mipLevels 0 0 0 TEX_DIMENSION_TEXTURE2D)
  match base with
  | none => none
  | some md =>
      match GetDXGIFormat (readU32 src 68) (ddpfOfBytes src) convFlags0 with
      | (fmt, cf) =>
          if fmt = DXGI_FORMAT_UNKNOWN then none
          else some ({ md with format := fmt }, cf)

/-- The common tail of `DecodeDDSHeader`: implicit alpha-mode inference and the
upper-bound checks (16384 max width/height, 15 max mip levels, 2048 max
array size/depth). -/
def decodeHeaderTail (md : TexMetadata) (cf : Nat) : Option (TexMetadata × Nat) :=
  let md1 :=
    if cf &&& CONV_FLAGS_NOALPHA ≠ 0 then md.setAlphaMode 3
    else if cf &&& CONV_FLAGS_PMALPHA ≠ 0 then md.setAlphaMode 2
    else md
  if 16384 < md1.width ∨ 16384 < md1.height ∨ 15 < md1.mipLevels then none
  else if 2048 < md1.arraySize ∨ 2048 < md1.depth then none
  else some (md1, cf)

/-- `DecodeDDSHeader`: parse and validate the header from `size` bytes of
`src`, producing the metadata and the conversion flags (`convFlags0` is the
caller's in/out flags value, 0 from `LoadFromDDSFile`).  `none` is the `false`
return. -/
def DecodeDDSHeader (src : List Nat) (size : Nat) (convFlags0 : Nat) :
    Option (TexMetadata × Nat) :=
  if size < 128 then none
  else if readU32 src 0 ≠ DDS_MAGIC then none
  else if readU32 src 4 ≠ 124 ∨ readU32 src 76 ≠ 32 then none
  else
    let mipLevels := if readU32 src 28 = 0 then 1 else readU32 src 28
    let ddpf := ddpfOfBytes src
    let core :=
      if ddpf.flags &&& DDS_FOURCC ≠ 0 ∧ ddpf.fourCC = FOURCC_DX10 then
        decodeHeaderDX10 src size mipLevels convFlags0
      else
        decodeHeaderLegacy src mipLevels convFlags0
    match core with
    | none => none
    | some (md, cf) => decodeHeaderTail md cf

/-- Outcome of the prefix of `LoadFromDDSFile` up to and including the
`image.Initialize(mdata)` call and its error return: either an early `return`
with the function's `bool` result, or control proceeding to the pixel-reading
phase with the decoded state. -/
inductive LoadPrefixOutcome where
  | ret (b : Bool)
  | proceed (mdata : TexMetadata) (convFlags offset remaining : Nat)
      (ini : TexMetadata × Nat × Nat × List ImageDesc)
deriving Repr, DecidableEq

/-- The prefix of `LoadFromDDSFile` (file opening always succeeds; `file` is
the file's byte contents): length check, header read (`min(len, 148)` bytes of
a zero-initialized 148-byte buffer), `DecodeDDSHeader`, cursor repositioning
for legacy headers, palette read, `remaining == 0` check, and
`image.Initialize`.  On `FAILED(hr)` the source executes `return hr;` inside a
function whose return type is `bool`, so the returned value is the C++
bool-conversion of the nonzero HRESULT, i.e. `true`. -/
def LoadFromDDSFilePrefix (file : List Nat) : LoadPrefixOutcome :=
  let len := file.length
  if len < 128 then .ret false
  else
    let headerLen := min len 148
    match DecodeDDSHeader (file.take headerLen) headerLen 0 with
    | none => .ret false
    | some (mdata, convFlags) =>
        let offset0 := if convFlags &&& CONV_FLAGS_DX10 ≠ 0 then 148 else 128
        if convFlags &&& CONV_FLAGS_PAL8 ≠ 0 ∧ len - offset0 < 1024 then
          .ret false  -- short read of the 256-entry palette
        else
          let offset :=
            if convFlags &&& CONV_FLAGS_PAL8 ≠ 0 then offset0 + 1024 else offset0
          let remaining := len - offset
          if remaining = 0 then .ret false
          else
            match ScratchInitialize mdata 0 with
            | (hr, none) => .ret (decide (hr ≠ 0))  -- `return hr;` as bool
            | (_, some ini) => .proceed mdata convFlags offset remaining ini

/-- A 149-byte DDS file: magic, legacy header with width 0, height 4,
mipMapCount 1, a DX10 pixel-format FourCC, the DX10 extension header
(format R8G8B8A8_UNORM, dimension TEXTURE2D, arraySize 1), and one pixel
byte.  `DecodeDDSHeader` accepts it (no lower-bound check on the
dimensions), and `ScratchImage::Initialize` then rejects the zero width with
`E_INVALIDARG`. -/
def ddsFileZeroWidth : List Nat :=
  [68, 68, 83, 32] ++       -- magic "DDS "
  [124, 0, 0, 0] ++         -- header size
  [0, 0, 0, 0] ++           -- flags
  [4, 0, 0, 0] ++           -- height = 4
  [0, 0, 0, 0] ++           -- width = 0
  [0, 0, 0, 0] ++           -- pitchOrLinearSize
  [0, 0, 0, 0] ++           -- depth
  [1, 0, 0, 0] ++           -- mipMapCount = 1
  List.replicate 44 0 ++    -- reserved1[11]
  [32, 0, 0, 0] ++          -- ddspf.size
  [4, 0, 0, 0] ++           -- ddspf.flags = DDS_FOURCC
  [68, 88, 49, 48] ++       -- ddspf.fourCC = "DX10"
  List.replicate 20 0 ++    -- ddspf bit count and masks
  List.replicate 20 0 ++    -- caps .. reserved2
  [28, 0, 0, 0] ++          -- DXT10.dxgiFormat = 28 (R8G8B8A8_UNORM)
  [3, 0, 0, 0] ++           -- DXT10.resourceDimension = TEXTURE2D
  [0, 0, 0, 0] ++           -- DXT10.miscFlag
  [1, 0, 0, 0] ++           -- DXT10.arraySize = 1
  [0, 0, 0, 0] ++           -- DXT10.miscFlags2
  [171]                     -- one byte of pixel data

example : ddsFileZeroWidth.length = 149 := by decide
example : ComputePitch64 DXGI_FORMAT_BC1_UNORM 4 4 0 = .ok 8 8 := by decide
example : ComputePitch64 DXGI_FORMAT_R8G8B8A8_UNORM 3 2 0 = .ok 12 24 := by decide

/-- The metadata produced by decoding `ddsFileZeroWidth`'s header. -/
def mdZeroWidth : TexMetadata :=
  { width := 0, height := 4, depth := 1, arraySize := 1, mipLevels := 1,
    miscFlags := 0, miscFlags2 := 0, format := DXGI_FORMAT_R8G8B8A8_UNORM,
    dimension := TEX_DIMENSION_TEXTURE2D }

/-- C1 (code bug): for `ddsFileZeroWidth` the header decodes successfully, the
layout-allocation step `ScratchImage::Initialize` fails (`E_INVALIDARG`, a
FAILED HRESULT), and yet `LoadFromDDSFile` returns `true` — success — to the
caller, because the source's `return hr;` converts the nonzero HRESULT to the
`bool` return type. -/
theorem loadFromDDSFile_success_on_initialize_failure :
    DecodeDDSHeader (ddsFileZeroWidth.take 148) 148 0 =
      some (mdZeroWidth, CONV_FLAGS_DX10)
    ∧ (ScratchInitialize mdZeroWidth 0).1 = E_INVALIDARG
    ∧ FAILED (ScratchInitialize mdZeroWidth 0).1 = true
    ∧ LoadFromDDSFilePrefix ddsFileZeroWidth = .ret true := by
  decide

/-- C2 (counterexample): a byte buffer whose header decodes successfully but
whose decoded width is 0, refuting the claim that success implies
`width ≥ 1 ∧ height ≥ 1 ∧ depth ≥ 1 ∧ arraySize ≥ 1 ∧ mipLevels ≥ 1`. -/
theorem decodeHeader_zero_width_counterexample :
    DecodeDDSHeader (ddsFileZeroWidth.take 148) 148 0 =
      some (mdZeroWidth, CONV_FLAGS_DX10)
    ∧ ¬ (1 ≤ mdZeroWidth.width ∧ 1 ≤ mdZeroWidth.height ∧ 1 ≤ mdZeroWidth.depth
        ∧ 1 ≤ mdZeroWidth.arraySize ∧ 1 ≤ mdZeroWidth.mipLevels) := by
  decide

theorem decodeHeaderDX10_fields {src : List Nat} {size mip cf0 : Nat}
    {md : TexMetadata} {cf : Nat}
    (h : decodeHeaderDX10 src size mip cf0 = some (md, cf)) :
    1 ≤ md.arraySize ∧ md.mipLevels = mip := by
  simp only [decodeHeaderDX10] at h
  repeat' split at h
  all_goals simp_all
  all_goals (obtain ⟨⟨rfl, rfl⟩⟩ := h; simp; omega)

theorem decodeHeaderLegacy_fields {src : List Nat} {mip cf0 : Nat}
    {md : TexMetadata} {cf : Nat}
    (h : decodeHeaderLegacy src mip cf0 = some (md, cf)) :
    1 ≤ md.arraySize ∧ md.mipLevels = mip := by
  simp only [decodeHeaderLegacy] at h
  split at h
  · simp at h
  · next md0 heq =>
    split at h
    · simp at h
    · simp only [Option.some.injEq, Prod.mk.injEq] at h
      have hmd := h.1
      subst hmd
      repeat' split at heq
      all_goals (try simp at heq)
      all_goals (subst heq; simp)

theorem decodeHeaderTail_fields {md : TexMetadata} {cf : Nat}
    {md1 : TexMetadata} {cf1 : Nat}
    (h : decodeHeaderTail md cf = some (md1, cf1)) :
    md1.arraySize = md.arraySize ∧ md1.mipLevels = md.mipLevels := by
  simp only [decodeHeaderTail, TexMetadata.setAlphaMode] at h
  repeat' split at h
  all_goals simp_all
  all_goals (obtain ⟨⟨rfl, rfl⟩⟩ := h; simp)

/-- C2 (amended): every successful `DecodeDDSHeader` yields
`arraySize ≥ 1` and `mipLevels ≥ 1` (the width, height and depth fields have
no lower-bound validation in the header decoder; they are checked later by
`ScratchImage::Initialize`). -/
theorem decodeHeader_arraySize_mipLevels_pos {src : List Nat} {size cf0 : Nat}
    {md : TexMetadata} {cf : Nat}
    (h : DecodeDDSHeader src size cf0 = some (md, cf)) :
    1 ≤ md.arraySize ∧ 1 ≤ md.mipLevels := by
  simp only [DecodeDDSHeader] at h
  split at h
  · simp at h
  · split at h
    · simp at h
    · split at h
      · simp at h
      · split at h
        · simp at h
        · next md0 cf0h hcore =>
          have hmip : 1 ≤ (if readU32 src 28 = 0 then 1 else readU32 src 28) := by
            split <;> omega
          have hfields : 1 ≤ md0.arraySize ∧
              md0.mipLevels = (if readU32 src 28 = 0 then 1 else readU32 src 28) := by
            split at hcore
            · exact decodeHeaderDX10_fields hcore
            · exact decodeHeaderLegacy_fields hcore
          obtain ⟨h1, h2⟩ := decodeHeaderTail_fields h
          omega

/-- C2 witness: the amended theorem applied to a concrete successful decode
(`ddsFileZeroWidth`). -/
theorem decodeHeader_arraySize_mipLevels_pos_witness :
    1 ≤ mdZeroWidth.arraySize ∧ 1 ≤ mdZeroWidth.mipLevels :=
  @decodeHeader_arraySize_mipLevels_pos (ddsFileZeroWidth.take 148) 148 0
    mdZeroWidth CONV_FLAGS_DX10 (by decide)

/-- C3 (counterexample): on the 64-bit build `ComputePitch` has no overflow
check at all.  For `R32G32B32A32_FLOAT` at width `2^60`, the mathematically
computed row pitch is `2^64` — above the platform's `SIZE_MAX` — yet the
function wraps the `uint64_t` intermediate to 0 and returns `S_OK` with
`rowPitch = slicePitch = 0` instead of an arithmetic-overflow error. -/
theorem computePitch_overflow_counterexample :
    ComputePitch64 DXGI_FORMAT_R32G32B32A32_FLOAT 1152921504606846976 1 0 = .ok 0 0
    ∧ SIZE_MAX64 < (1152921504606846976 * 128 + 7) / 8 := by
  decide

/-- C3 (amended): only the 32-bit build checks for overflow: whenever the
pitch or slice computed in 64-bit arithmetic exceeds `UINT32_MAX` — the
32-bit platform's addressable-size limit — `ComputePitch` returns
`HRESULT_E_ARITHMETIC_OVERFLOW` (zeroing both out-parameters) rather than a
wrapped value.  The 64-bit build performs no such check and reduces modulo
`2^64`. -/
theorem computePitch32_overflow {fmt w h flags p s : Nat}
    (hraw : computePitchRaw fmt w h flags = some (p, s))
    (hover : 4294967295 < p ∨ 4294967295 < s) :
    ComputePitch32 fmt w h flags = .overflow := by
  unfold ComputePitch32
  rw [hraw]
  exact if_pos hover

/-- C3 witness: `R8_UNORM` at width `2^33` has pitch `2^33 > UINT32_MAX`, and
the 32-bit build reports the overflow error. -/
theorem computePitch32_overflow_witness :
    ComputePitch32 DXGI_FORMAT_R8_UNORM 8589934592 1 0 = .overflow :=
  @computePitch32_overflow DXGI_FORMAT_R8_UNORM 8589934592 1 0 8589934592
    8589934592 (by decide) (by decide)

/-- C4 (counterexample): at height 0 (the claim quantifies over every pair of
dimensions) the BC branch clamps the block row count to 1, so `slicePitch`
equals `rowPitch`, not `rowPitch * ceil(0/4) = 0`. -/
theorem computePitch_bc_zero_height_counterexample :
    ComputePitch64 DXGI_FORMAT_BC1_UNORM 4 0 0 = .ok 8 8
    ∧ (8 : Nat) ≠ 8 * ((0 + 3) / 4) := by
  decide

theorem computePitch64_bc8 (fmt w h : Nat) (h8 : isBCBlock8 fmt = true) :
    ComputePitch64 fmt w h 0 =
      .ok (m64 (max 1 (m64 (w + 3) / 4) * 8))
          (m64 (m64 (max 1 (m64 (w + 3) / 4) * 8) * max 1 (m64 (h + 3) / 4))) := by
  simp [ComputePitch64, computePitchRaw, h8, CP_FLAGS_BAD_DXTN_TAILS]

theorem computePitch64_bc16 (fmt w h : Nat) (h8 : isBCBlock8 fmt = false)
    (h16 : isBCBlock16 fmt = true) :
    ComputePitch64 fmt w h 0 =
      .ok (m64 (max 1 (m64 (w + 3) / 4) * 16))
          (m64 (m64 (max 1 (m64 (w + 3) / 4) * 16) * max 1 (m64 (h + 3) / 4))) := by
  simp [ComputePitch64, computePitchRaw, h8, h16, CP_FLAGS_BAD_DXTN_TAILS]

theorem bc_pitch_calc (B w h : Nat) (hB1 : 1 ≤ B) (hB2 : B ≤ 16)
    (hw1 : 1 ≤ w) (hw2 : w ≤ 1073741824) (hh1 : 1 ≤ h) (hh2 : h ≤ 1073741824) :
    m64 (max 1 (m64 (w + 3) / 4) * B) = (w + 3) / 4 * B
    ∧ m64 (m64 (max 1 (m64 (w + 3) / 4) * B) * max 1 (m64 (h + 3) / 4))
      = (w + 3) / 4 * B * ((h + 3) / 4) := by
  have hw3 : m64 (w + 3) = w + 3 := Nat.mod_eq_of_lt (by omega)
  have hh3 : m64 (h + 3) = h + 3 := Nat.mod_eq_of_lt (by omega)
  have hq1 : 1 ≤ (w + 3) / 4 := by omega
  have hq1h : 1 ≤ (h + 3) / 4 := by omega
  have hmaxw : max 1 ((w + 3) / 4) = (w + 3) / 4 := Nat.max_eq_right hq1
  have hmaxh : max 1 ((h + 3) / 4) = (h + 3) / 4 := Nat.max_eq_right hq1h
  have hqw : (w + 3) / 4 ≤ 268435456 := by omega
  have hqh : (h + 3) / 4 ≤ 268435456 := by omega
  have hpb : (w + 3) / 4 * B ≤ 268435456 * 16 := Nat.mul_le_mul hqw hB2
  have hpitch : m64 ((w + 3) / 4 * B) = (w + 3) / 4 * B :=
    Nat.mod_eq_of_lt (by omega)
  have hsb : (w + 3) / 4 * B * ((h + 3) / 4) ≤ 268435456 * 16 * 268435456 :=
    Nat.mul_le_mul hpb hqh
  have hslice : m64 ((w + 3) / 4 * B * ((h + 3) / 4)) = (w + 3) / 4 * B * ((h + 3) / 4) :=
    Nat.mod_eq_of_lt (by omega)
  rw [hw3, hh3, hmaxw, hmaxh, hpitch]
  exact ⟨rfl, hslice⟩

/-- C4 (amended): for every block-compressed format and every pair of
dimensions with `1 ≤ width, height ≤ 2^30` (so that no `uint64_t` wrap occurs;
the claim fails at height 0, where the source clamps the block row count to 1),
`ComputePitch` under the default policy returns
`rowPitch = ceil(width/4) * bytesPerBlock` and
`slicePitch = rowPitch * ceil(height/4)`, and `rowPitch` is a multiple of the
format's block byte size (8 for BC1/BC4, 16 for BC2/BC3/BC5/BC6H/BC7). -/
theorem computePitch_bc_pitch_relation (fmt w h : Nat)
    (hc : isCompressed fmt = true)
    (hw1 : 1 ≤ w) (hw2 : w ≤ 1073741824) (hh1 : 1 ≤ h) (hh2 : h ≤ 1073741824) :
    ComputePitch64 fmt w h 0 =
      .ok ((w + 3) / 4 * bcBlockBytes fmt)
          ((w + 3) / 4 * bcBlockBytes fmt * ((h + 3) / 4))
    ∧ (w + 3) / 4 * bcBlockBytes fmt % bcBlockBytes fmt = 0 := by
  have hc8 := bc_pitch_calc 8 w h (by norm_num) (by norm_num) hw1 hw2 hh1 hh2
  have hc16 := bc_pitch_calc 16 w h (by norm_num) (by norm_num) hw1 hw2 hh1 hh2
  have hcases := hc
  simp only [isCompressed, Bool.or_eq_true, beq_iff_eq] at hcases
  rcases hcases with
    ((((((((((((((((((((rfl|rfl)|rfl)|rfl)|rfl)|rfl)|rfl)|rfl)|rfl)|rfl)|rfl)|rfl)|rfl)|rfl)|rfl)|rfl)|rfl)|rfl)|rfl)|rfl)|rfl) <;>
    first
      | (rw [computePitch64_bc8 _ w h (by decide), hc8.2, hc8.1]
         exact ⟨by simp [bcBlockBytes, isBCBlock8], Nat.mul_mod_left _ _⟩)
      | (rw [computePitch64_bc16 _ w h (by decide) (by decide), hc16.2, hc16.1]
         exact ⟨by simp [bcBlockBytes, isBCBlock8], Nat.mul_mod_left _ _⟩)

/-- C4 witness: the amended theorem at BC1 with width 5, height 6. -/
theorem computePitch_bc_pitch_relation_witness :
    ComputePitch64 DXGI_FORMAT_BC1_UNORM 5 6 0 =
      .ok ((5 + 3) / 4 * bcBlockBytes DXGI_FORMAT_BC1_UNORM)
          ((5 + 3) / 4 * bcBlockBytes DXGI_FORMAT_BC1_UNORM * ((6 + 3) / 4))
    ∧ (5 + 3) / 4 * bcBlockBytes DXGI_FORMAT_BC1_UNORM %
        bcBlockBytes DXGI_FORMAT_BC1_UNORM = 0 :=
  computePitch_bc_pitch_relation 71 5 6 (by decide) (by decide) (by decide)
    (by decide) (by decide)

theorem halveDim_pos {x : Nat} (hx : 1 ≤ x) : 1 ≤ halveDim x := by
  rw [halveDim_eq]; split <;> omega

theorem countMips_pos (w h : Nat) : 1 ≤ countMips w h := by
  rw [countMips_eq]; split <;> omega

/-- Simultaneous halving of both dimensions, one mip level down. -/
def halvePair (p : Nat × Nat) : Nat × Nat := (halveDim p.1, halveDim p.2)

theorem countMips_spec_aux :
    ∀ n w h, w + h ≤ n → 1 ≤ w → 1 ≤ h →
      halvePair^[countMips w h - 1] (w, h) = (1, 1)
      ∧ ∀ k, k < countMips w h - 1 → halvePair^[k] (w, h) ≠ (1, 1) := by
  intro n
  induction n with
  | zero => intro w h hle hw hh; omega
  | succ n ih =>
      intro w h hle hw hh
      by_cases hc : 1 < h ∨ 1 < w
      · have hw2 := halveDim_pos hw
        have hh2 := halveDim_pos hh
        have hrec := ih (halveDim w) (halveDim h) (halveDim_sum_le hc hle) hw2 hh2
        have hcm : countMips w h = countMips (halveDim w) (halveDim h) + 1 := by
          rw [countMips_eq, if_pos hc]
        have hpos := countMips_pos (halveDim w) (halveDim h)
        constructor
        · rw [hcm]
          have hstep : countMips (halveDim w) (halveDim h) + 1 - 1 =
              (countMips (halveDim w) (halveDim h) - 1) + 1 := by omega
          rw [hstep, Function.iterate_succ_apply]
          exact hrec.1
        · intro k hk
          match k with
          | 0 =>
              simp only [Function.iterate_zero, id]
              intro hcontra
              rw [Prod.mk.injEq] at hcontra
              omega
          | j + 1 =>
              rw [Function.iterate_succ_apply]
              exact hrec.2 j (by omega)
      · have hw1 : w = 1 := by omega
        have hh1 : h = 1 := by omega
        subst hw1; subst hh1
        have hcm : countMips 1 1 = 1 := by rw [countMips_eq]; simp
        rw [hcm]
        exact ⟨rfl, by omega⟩

/-- C8: for all `width, height ≥ 1`, `CountMips` returns a level count `v` such
that `v - 1` simultaneous halvings (floor, minimum 1) bring the pair exactly to
`(1, 1)`, and no earlier level reaches `(1, 1)`. -/
theorem countMips_correct (w h : Nat) (hw : 1 ≤ w) (hh : 1 ≤ h) :
    halvePair^[countMips w h - 1] (w, h) = (1, 1)
    ∧ ∀ k, k < countMips w h - 1 → halvePair^[k] (w, h) ≠ (1, 1) :=
  countMips_spec_aux (w + h) w h (Nat.le_refl _) hw hh

/-- C8 witness: the theorem applied at `(width, height) = (5, 2)`
(`countMips 5 2 = 3`, and two halvings give `(5,2) → (2,1) → (1,1)`). -/
theorem countMips_correct_witness :
    halvePair^[countMips 5 2 - 1] (5, 2) = (1, 1) :=
  (countMips_correct 5 2 (by decide) (by decide)).1

/-- C7: for a 1D/2D texture with `arraySize = N ≥ 1`, `mipLevels = M ≥ 1` and
`N * M` below the `size_t` range, the map
`(item, mip) ↦ computeIndex(mip, item, 0) = item * M + mip` is injective over
`{0..N-1} × {0..M-1}` and its image is exactly `{0..N*M-1}`. -/
theorem computeIndex_2d_bijective (md : TexMetadata)
    (hdim : md.dimension = TEX_DIMENSION_TEXTURE1D ∨
            md.dimension = TEX_DIMENSION_TEXTURE2D)
    (hN : 1 ≤ md.arraySize) (hM : 1 ≤ md.mipLevels)
    (hbound : md.arraySize * md.mipLevels < 18446744073709551616) :
    (∀ item mip, item < md.arraySize → mip < md.mipLevels →
        md.computeIndex mip item 0 = item * md.mipLevels + mip
        ∧ item * md.mipLevels + mip < md.arraySize * md.mipLevels)
    ∧ (∀ i1 m1 i2 m2, i1 < md.arraySize → m1 < md.mipLevels →
        i2 < md.arraySize → m2 < md.mipLevels →
        md.computeIndex m1 i1 0 = md.computeIndex m2 i2 0 → i1 = i2 ∧ m1 = m2)
    ∧ (∀ k, k < md.arraySize * md.mipLevels → ∃ item mip,
        item < md.arraySize ∧ mip < md.mipLevels ∧ md.computeIndex mip item 0 = k) := by
  have hMpos : 0 < md.mipLevels := hM
  have key : ∀ item mip, item < md.arraySize → mip < md.mipLevels →
      item * md.mipLevels + mip < md.arraySize * md.mipLevels := by
    intro item mip hi hm
    calc item * md.mipLevels + mip < item * md.mipLevels + md.mipLevels := by omega
    _ = (item + 1) * md.mipLevels := by ring
    _ ≤ md.arraySize * md.mipLevels := Nat.mul_le_mul_right _ (by omega)
  have hval : ∀ item mip, item < md.arraySize → mip < md.mipLevels →
      md.computeIndex mip item 0 = item * md.mipLevels + mip := by
    intro item mip hi hm
    simp only [TexMetadata.computeIndex]
    rw [if_neg (by omega), if_pos hdim, if_neg (by omega), if_neg (by omega)]
    exact Nat.mod_eq_of_lt (by have := key item mip hi hm; omega)
  refine ⟨fun item mip hi hm => ⟨hval item mip hi hm, key item mip hi hm⟩, ?_, ?_⟩
  · intro i1 m1 i2 m2 hi1 hm1 hi2 hm2 heq
    rw [hval i1 m1 hi1 hm1, hval i2 m2 hi2 hm2] at heq
    have heq2 : md.mipLevels * i1 + m1 = md.mipLevels * i2 + m2 := by
      rw [Nat.mul_comm md.mipLevels i1, Nat.mul_comm md.mipLevels i2]
      omega
    have hdiv := congrArg (fun x => x / md.mipLevels) heq2
    simp only [Nat.mul_add_div hMpos] at hdiv
    rw [Nat.div_eq_of_lt hm1, Nat.div_eq_of_lt hm2] at hdiv
    constructor
    · omega
    · have : i1 = i2 := by omega
      subst this
      omega
  · intro k hk
    have hklt : k / md.mipLevels < md.arraySize :=
      (Nat.div_lt_iff_lt_mul hMpos).mpr hk
    refine ⟨k / md.mipLevels, k % md.mipLevels, hklt, Nat.mod_lt _ hMpos, ?_⟩
    rw [hval _ _ hklt (Nat.mod_lt _ hMpos)]
    rw [Nat.mul_comm (k / md.mipLevels) md.mipLevels]
    exact Nat.div_add_mod k md.mipLevels

/-- Concrete 2D array metadata used by the C7 witness (N = 3 items, M = 2
mip levels). -/
def mdArr2D : TexMetadata :=
  { width := 8, height := 8, depth := 1, arraySize := 3, mipLevels := 2,
    miscFlags := 0, miscFlags2 := 0, format := DXGI_FORMAT_R8G8B8A8_UNORM,
    dimension := TEX_DIMENSION_TEXTURE2D }

/-- C7 witness: the theorem applied to `mdArr2D` at item 2, mip 1:
the flat index is `2 * 2 + 1 = 5`. -/
theorem computeIndex_2d_bijective_witness :
    mdArr2D.computeIndex 1 2 0 = 2 * mdArr2D.mipLevels + 1 :=
  ((computeIndex_2d_bijective mdArr2D (Or.inr rfl) (by decide) (by decide)
    (by decide)).1 2 1 (by decide) (by decide)).1

theorem ci3dLoop_snd : ∀ mip index d, (ci3dLoop index d mip).2 = halveDim^[mip] d := by
  intro mip
  induction mip with
  | zero => intro index d; rfl
  | succ n ih =>
      intro index d
      show (ci3dLoop (m64 (index + d)) (halveDim d) n).2 = halveDim^[n + 1] d
      rw [Function.iterate_succ_apply]
      exact ih _ _

theorem halveDim_iter_le (d : Nat) : ∀ k, halveDim^[k] d ≤ d := by
  intro k
  induction k generalizing d with
  | zero => simp
  | succ n ih =>
      rw [Function.iterate_succ_apply]
      exact le_trans (ih (halveDim d)) (halveDim_le d)

theorem m64_le (x : Nat) : m64 x ≤ x := Nat.mod_le _ _

theorem ci3dLoop_fst_le : ∀ mip index d, (ci3dLoop index d mip).1 ≤ index + mip * d := by
  intro mip
  induction mip with
  | zero => intro index d; simp [ci3dLoop]
  | succ n ih =>
      intro index d
      show (ci3dLoop (m64 (index + d)) (halveDim d) n).1 ≤ index + (n + 1) * d
      calc (ci3dLoop (m64 (index + d)) (halveDim d) n).1
          ≤ m64 (index + d) + n * halveDim d := ih _ _
        _ ≤ (index + d) + n * d := by
            have h1 := m64_le (index + d)
            have h2 := Nat.mul_le_mul_left n (halveDim_le d)
            omega
        _ = index + (n + 1) * d := by ring

/-- C10: for a 3D texture (with the decoder-scale bounds
`depth ≤ 2^32`, `mipLevels ≤ 2^16`), `ComputeIndex` returns the `size_t(-1)`
sentinel exactly when `mip ≥ mipLevels`, or `item > 0`, or the requested slice
is at or beyond the depth at that mip level (base depth halved per level,
floor 1); for every smaller slice (with `item = 0`, `mip < mipLevels`) it
returns a valid index, never the sentinel. -/
theorem computeIndex_3d_sentinel (md : TexMetadata)
    (hdim : md.dimension = TEX_DIMENSION_TEXTURE3D)
    (hdepth : md.depth ≤ 4294967296) (hmips : md.mipLevels ≤ 65536) :
    ∀ mip item slice,
      ((md.mipLevels ≤ mip ∨ 0 < item ∨ halveDim^[mip] md.depth ≤ slice) →
        md.computeIndex mip item slice = SIZE_MAX64)
      ∧ (mip < md.mipLevels → item = 0 → slice < halveDim^[mip] md.depth →
        md.computeIndex mip item slice ≠ SIZE_MAX64) := by
  intro mip item slice
  have hnot12 : ¬ (md.dimension = TEX_DIMENSION_TEXTURE1D ∨
      md.dimension = TEX_DIMENSION_TEXTURE2D) := by
    rw [hdim]; decide
  constructor
  · intro hc
    by_cases hm : md.mipLevels ≤ mip
    · simp only [TexMetadata.computeIndex]
      rw [if_pos hm]
    · simp only [TexMetadata.computeIndex]
      rw [if_neg hm, if_neg hnot12, if_pos hdim]
      by_cases hi : 0 < item
      · rw [if_pos hi]
      · rw [if_neg hi]
        have hs : halveDim^[mip] md.depth ≤ slice := by
          rcases hc with hc | hc | hc
          · omega
          · omega
          · exact hc
        rw [if_pos (by rw [ci3dLoop_snd]; exact hs)]
  · intro hm hi hs
    simp only [TexMetadata.computeIndex]
    rw [if_neg (by omega), if_neg hnot12, if_pos hdim, if_neg (by omega),
      if_neg (by rw [ci3dLoop_snd]; omega)]
    have hidx : (ci3dLoop 0 md.depth mip).1 ≤ mip * md.depth := by
      have := ci3dLoop_fst_le mip 0 md.depth
      omega
    have hmd : mip * md.depth ≤ 65536 * 4294967296 :=
      Nat.mul_le_mul (by omega) hdepth
    have hsd : slice < md.depth := by
      have := halveDim_iter_le md.depth mip
      omega
    have hsum : (ci3dLoop 0 md.depth mip).1 + slice < SIZE_MAX64 := by
      unfold SIZE_MAX64
      omega
    unfold SIZE_MAX64 at hsum ⊢
    unfold m64
    omega

/-- Concrete 3D metadata used by the C10 witness (depth 4, 3 mip levels). -/
def mdVol3D : TexMetadata :=
  { width := 4, height := 4, depth := 4, arraySize := 1, mipLevels := 3,
    miscFlags := 0, miscFlags2 := 0, format := DXGI_FORMAT_R8G8B8A8_UNORM,
    dimension := TEX_DIMENSION_TEXTURE3D }

/-- C10 witness: at mip 1 the depth is 2, so slice 1 is valid and
`ComputeIndex` does not return the sentinel. -/
theorem computeIndex_3d_sentinel_witness :
    mdVol3D.computeIndex 1 0 1 ≠ SIZE_MAX64 :=
  (computeIndex_3d_sentinel mdVol3D rfl (by decide) (by decide) 1 0 1).2
    (by decide) rfl (by decide)

-- TEXP_SCANLINE flags.
def TEXP_SCANLINE_SETALPHA : Nat := 0x1
def TEXP_SCANLINE_LEGACY : Nat := 0x2

/-- Per-pixel bit shuffle of the `B5G6R5_UNORM → R8G8B8A8_UNORM` branch of
`ExpandScanline` (bit replication of the 5/6-bit channels into 8 bits, alpha
forced opaque). -/
def expand565Word (t : Nat) : Nat :=
  let t1 := ((t &&& 0xf800) >>> 8) ||| ((t &&& 0xe000) >>> 13)
  let t2 := ((t &&& 0x07e0) <<< 5) ||| ((t &&& 0x0600) >>> 5)
  let t3 := ((t &&& 0x001f) <<< 19) ||| ((t &&& 0x001c) <<< 14)
  t1 ||| t2 ||| t3 ||| 0xff000000

/-- The `B5G6R5_UNORM` case of `ExpandScanline`: the source row is a list of
16-bit words, the result a list of 32-bit words; `inSize`/`outSize` are the
byte sizes of the two buffers.  The loop runs while `icount < inSize - 1` and
`ocount < outSize - 3` with `icount += 2, ocount += 4`, i.e. for
`min (inSize / 2) (outSize / 4)` pixels; `none` is the `false` return (wrong
destination format or a buffer smaller than one pixel). -/
def ExpandScanline565toRGBA8 (outFormat : Nat) (src : List Nat)
    (inSize outSize : Nat) : Option (List Nat) :=
  if outFormat ≠ DXGI_FORMAT_R8G8B8A8_UNORM then none
  else if 2 ≤ inSize ∧ 4 ≤ outSize then
    some ((src.take (min (inSize / 2) (outSize / 4))).map expand565Word)
  else none

/-- C9: expanding a one-pixel 5:6:5 row with value 0xF800 (max red, zero
green/blue) to `R8G8B8A8_UNORM` gives the 32-bit word 0xFF0000FF: red channel
(lowest byte) 0xFF, green and blue 0x00, alpha 0xFF. -/
theorem expandScanline_565_maxRed :
    ExpandScanline565toRGBA8 DXGI_FORMAT_R8G8B8A8_UNORM [0xF800] 2 4 =
      some [0xFF0000FF]
    ∧ 0xFF0000FF &&& 0xFF = 0xFF
    ∧ (0xFF0000FF >>> 8) &&& 0xFF = 0
    ∧ (0xFF0000FF >>> 16) &&& 0xFF = 0
    ∧ (0xFF0000FF >>> 24) &&& 0xFF = 0xFF := by
  decide

/-- Case labels of `SwizzleScanline`'s first switch group (the
R10G10B10A2 family): codes 23, 24, 25, 89, 189. -/
def isSwizzle10Fmt (fmt : Nat) : Bool :=
  fmt == 23 || fmt == 24 || fmt == 25 || fmt == 89 || fmt == 189

/-- Case labels of `SwizzleScanline`'s second switch group (the
RGBA8/BGRA8 family): codes 27, 28, 29, 87, 88, 90, 91, 92, 93. -/
def isSwizzle8Fmt (fmt : Nat) : Bool :=
  fmt == 27 || fmt == 28 || fmt == 29 || fmt == 87 || fmt == 88 ||
  fmt == 90 || fmt == 91 || fmt == 92 || fmt == 93

/-- Per-pixel R/B field swap of the R10G10B10A2 family branch of
`SwizzleScanline`. -/
def swizzleWord10 (tflags t : Nat) : Nat :=
  let t1 := (t &&& 0x3ff00000) >>> 20
  let t2 := (t &&& 0x000003ff) <<< 20
  let t3 := t &&& 0x000ffc00
  let ta := if tflags &&& TEXP_SCANLINE_SETALPHA ≠ 0 then 0xC0000000
            else t &&& 0xC0000000
  t1 ||| t2 ||| t3 ||| ta

/-- Per-pixel R/B byte swap of the RGBA8/BGRA8 family branch of
`SwizzleScanline`. -/
def swizzleWord8 (tflags t : Nat) : Nat :=
  let t1 := (t &&& 0x00ff0000) >>> 16
  let t2 := (t &&& 0x000000ff) <<< 16
  let t3 := t &&& 0x0000ff00
  let ta := if tflags &&& TEXP_SCANLINE_SETALPHA ≠ 0 then 0xff000000
            else t &&& 0xFF000000
  t1 ||| t2 ||| t3 ||| ta

/-- Per-pixel byte reorder of the YUY2 legacy branch of `SwizzleScanline`
(legacy UYVY → YUY2). -/
def swizzleWordYUY2 (t : Nat) : Nat :=
  ((t &&& 0x000000ff) <<< 8) ||| ((t &&& 0x0000ff00) >>> 8) |||
  ((t &&& 0x00ff0000) <<< 8) ||| ((t &&& 0xff000000) >>> 8)

/-- `SwizzleScanline`, with scanlines as lists of 32-bit words (the byte sizes
are `outSize = 4 * dst.length`, `inSize = 4 * src.length`; the source loops
step 4 bytes per pixel).  `inPlace` models `pDestination == pSource`; in that
mode `dst` and `src` carry the same buffer and the loop runs over the whole
destination (`count < outSize - 3`), while in copying mode it runs over
`min(outSize, inSize)` and the tail of `dst` is left untouched.  The final
fall-through is the `memcpy` of `min(outSize, inSize)` bytes, skipped entirely
in place. -/
def SwizzleScanline (format tflags : Nat) (inPlace : Bool)
    (dst src : List Nat) : List Nat :=
  let n := min dst.length src.length
  let passthru := if inPlace then dst else src.take n ++ dst.drop n
  if isSwizzle10Fmt format then
    if 1 ≤ src.length ∧ 1 ≤ dst.length then
      if tflags &&& TEXP_SCANLINE_LEGACY ≠ 0 then
        if inPlace then dst.map (swizzleWord10 tflags)
        else (src.take n).map (swizzleWord10 tflags) ++ dst.drop n
      else passthru
    else passthru
  else if isSwizzle8Fmt format then
    if 1 ≤ src.length ∧ 1 ≤ dst.length then
      if inPlace then dst.map (swizzleWord8 tflags)
      else (src.take n).map (swizzleWord8 tflags) ++ dst.drop n
    else passthru
  else if format == DXGI_FORMAT_YUY2 then
    if 1 ≤ src.length ∧ 1 ≤ dst.length then
      if tflags &&& TEXP_SCANLINE_LEGACY ≠ 0 then
        if inPlace then dst.map swizzleWordYUY2
        else (src.take n).map swizzleWordYUY2 ++ dst.drop n
      else passthru
    else passthru
  else passthru

/-- C5 (counterexample): (a) for an R10G10B10A2_UNORM scanline without the
legacy flag, `SwizzleScanline` does {\em not} swap R and B — in place it is a
no-op, so the pixel 0x3FF (R = 0x3FF) stays 0x3FF instead of becoming
0x3FF00000; (b) a YUY2 scanline under the legacy flag is byte-reordered, not
pass-through copied. -/
theorem swizzleScanline_claim_counterexample :
    SwizzleScanline DXGI_FORMAT_R10G10B10A2_UNORM 0 true [0x3FF] [0x3FF] = [0x3FF]
    ∧ ([0x3FF] : List Nat) ≠ [0x3FF00000]
    ∧ SwizzleScanline DXGI_FORMAT_YUY2 TEXP_SCANLINE_LEGACY false [0] [0x11223344]
        = [0x22114433]
    ∧ ([0x22114433] : List Nat) ≠ [0x11223344] := by
  decide

/-- C5 (amended): `SwizzleScanline` swaps the R and B channel fields of each
pixel for the R10G10B10A2 family only under the LEGACY flag, and for the
RGBA8/BGRA8 family under any flags, both in place and while copying; for every
other case — including the R10G10B10A2 family without the LEGACY flag, but
excluding YUY2 with the LEGACY flag, which is byte-reordered — it is a
pass-through copy of `min(outSize, inSize)` bytes, and a no-op (not an error)
when destination equals source.  In-place swizzle of the BGRA8 pixel
0x11223344 yields 0x11443322. -/
theorem swizzleScanline_amended :
    (∀ fmt tflags (src dst : List Nat), isSwizzle10Fmt fmt = true →
        tflags &&& TEXP_SCANLINE_LEGACY ≠ 0 → 1 ≤ src.length →
        dst.length = src.length →
        SwizzleScanline fmt tflags true src src = src.map (swizzleWord10 tflags)
        ∧ SwizzleScanline fmt tflags false dst src = src.map (swizzleWord10 tflags))
    ∧ (∀ fmt tflags (src dst : List Nat), isSwizzle8Fmt fmt = true →
        1 ≤ src.length → dst.length = src.length →
        SwizzleScanline fmt tflags true src src = src.map (swizzleWord8 tflags)
        ∧ SwizzleScanline fmt tflags false dst src = src.map (swizzleWord8 tflags))
    ∧ (∀ fmt tflags (dst src : List Nat), isSwizzle10Fmt fmt = false →
        isSwizzle8Fmt fmt = false →
        (fmt = DXGI_FORMAT_YUY2 → tflags &&& TEXP_SCANLINE_LEGACY = 0) →
        SwizzleScanline fmt tflags true dst dst = dst
        ∧ SwizzleScanline fmt tflags false dst src =
            src.take (min dst.length src.length) ++ dst.drop (min dst.length src.length))
    ∧ (∀ fmt tflags (dst src : List Nat), isSwizzle10Fmt fmt = true →
        tflags &&& TEXP_SCANLINE_LEGACY = 0 →
        SwizzleScanline fmt tflags true dst dst = dst
        ∧ SwizzleScanline fmt tflags false dst src =
            src.take (min dst.length src.length) ++ dst.drop (min dst.length src.length))
    ∧ SwizzleScanline DXGI_FORMAT_B8G8R8A8_UNORM 0 true [0x11223344] [0x11223344]
        = [0x11443322] := by
  refine ⟨?_, ?_, ?_, ?_, by decide⟩
  · intro fmt tflags src dst h10 hleg hlen hdl
    constructor
    · simp [SwizzleScanline, h10, hleg, hlen]
    · simp [SwizzleScanline, h10, hleg, hlen, hdl, List.take_length,
        List.drop_length]
  · intro fmt tflags src dst h8 hlen hdl
    have h10 : isSwizzle10Fmt fmt = false := by
      revert h8
      simp [isSwizzle10Fmt, isSwizzle8Fmt]
      omega
    constructor
    · simp [SwizzleScanline, h10, h8, hlen]
    · simp [SwizzleScanline, h10, h8, hlen, hdl, List.take_length,
        List.drop_length]
  · intro fmt tflags dst src h10 h8 hyuy
    by_cases hf : fmt = DXGI_FORMAT_YUY2
    · have hleg := hyuy hf
      subst hf
      constructor
      · simp [SwizzleScanline, h10, h8, hleg]
      · simp [SwizzleScanline, h10, h8, hleg]
    · have hfb : (fmt == DXGI_FORMAT_YUY2) = false := by
        simp [hf]
      constructor
      · simp [SwizzleScanline, h10, h8, hfb]
      · simp [SwizzleScanline, h10, h8, hfb]
  · intro fmt tflags dst src h10 hleg
    constructor
    · simp [SwizzleScanline, h10, hleg]
    · simp [SwizzleScanline, h10, hleg]

/-- C5 witness: the amended theorem applied to one-pixel scanlines — in-place
legacy swizzle of an R10G10B10A2 pixel maps it through `swizzleWord10`. -/
theorem swizzleScanline_amended_witness :
    SwizzleScanline DXGI_FORMAT_R10G10B10A2_UNORM TEXP_SCANLINE_LEGACY true
      [0x3FF] [0x3FF] = ([0x3FF] : List Nat).map (swizzleWord10 TEXP_SCANLINE_LEGACY) :=
  (swizzleScanline_amended.1 DXGI_FORMAT_R10G10B10A2_UNORM TEXP_SCANLINE_LEGACY
    [0x3FF] [0x3FF] (by decide) (by decide) (by decide) rfl).1

theorem setupMips2D_exact (fmt cp : Nat) :
    ∀ levels w h n t ps ni idx cur,
      detMips2D fmt cp w h levels = some (n, t) →
      idx + n ≤ ni → cur + t ≤ ps →
      ∃ l, setupMips2D fmt cp ps ni w h levels idx cur = some (l, idx + n, cur + t)
        ∧ l.length = n := by
  intro levels
  induction levels with
  | zero =>
      intro w h n t ps ni idx cur hdet hni hps
      simp only [detMips2D, Option.some.injEq, Prod.mk.injEq] at hdet
      obtain ⟨rfl, rfl⟩ := hdet
      exact ⟨[], by simp [setupMips2D], rfl⟩
  | succ lev ih =>
      intro w h n t ps ni idx cur hdet hni hps
      simp only [detMips2D] at hdet
      cases hcp : ComputePitch64 fmt w h cp with
      | invalidArg => rw [hcp] at hdet; simp at hdet
      | overflow => rw [hcp] at hdet; simp at hdet
      | ok p s =>
          rw [hcp] at hdet
          cases hrec : detMips2D fmt cp (halveDim w) (halveDim h) lev with
          | none => rw [hrec] at hdet; simp at hdet
          | some nt =>
              obtain ⟨nr, tr⟩ := nt
              rw [hrec] at hdet
              simp only [Option.some.injEq, Prod.mk.injEq] at hdet
              obtain ⟨hn, ht⟩ := hdet
              obtain ⟨l, hl, hlen⟩ := ih (halveDim w) (halveDim h) nr tr ps ni
                (idx + 1) (cur + s) hrec (by omega) (by omega)
              refine ⟨⟨w, h, fmt, p, s, cur⟩ :: l, ?_, by simp [hlen]; omega⟩
              simp only [setupMips2D, hcp]
              rw [if_neg (by omega), if_neg (by omega), hl]
              have e1 : idx + 1 + nr = idx + n := by omega
              have e2 : cur + s + tr = cur + t := by omega
              rw [e1, e2]

theorem setupItems2D_exact (fmt cp w h levels : Nat) :
    ∀ items n t ps ni idx cur,
      detItems2D fmt cp w h levels items = some (n, t) →
      idx + n ≤ ni → cur + t ≤ ps →
      ∃ l, setupItems2D fmt cp ps ni w h levels items idx cur =
          some (l, idx + n, cur + t)
        ∧ l.length = n := by
  intro items
  induction items with
  | zero =>
      intro n t ps ni idx cur hdet hni hps
      simp only [detItems2D, Option.some.injEq, Prod.mk.injEq] at hdet
      obtain ⟨rfl, rfl⟩ := hdet
      exact ⟨[], by simp [setupItems2D], rfl⟩
  | succ it ih =>
      intro n t ps ni idx cur hdet hni hps
      simp only [detItems2D] at hdet
      cases hm : detMips2D fmt cp w h levels with
      | none => rw [hm] at hdet; simp at hdet
      | some nt1 =>
          obtain ⟨n1, t1⟩ := nt1
          rw [hm] at hdet
          cases hi : detItems2D fmt cp w h levels it with
          | none => rw [hi] at hdet; simp at hdet
          | some nt2 =>
              obtain ⟨n2, t2⟩ := nt2
              rw [hi] at hdet
              simp only [Option.some.injEq, Prod.mk.injEq] at hdet
              obtain ⟨hn, ht⟩ := hdet
              obtain ⟨l1, hl1, hlen1⟩ := setupMips2D_exact fmt cp levels w h n1 t1
                ps ni idx cur hm (by omega) (by omega)
              obtain ⟨l2, hl2, hlen2⟩ := ih n2 t2 ps ni (idx + n1) (cur + t1) hi
                (by omega) (by omega)
              refine ⟨l1 ++ l2, ?_, by simp [hlen1, hlen2]; omega⟩
              simp only [setupItems2D]
              rw [hl1]
              dsimp only
              rw [hl2]
              have e1 : idx + n1 + n2 = idx + n := by omega
              have e2 : cur + t1 + t2 = cur + t := by omega
              rw [e1, e2]

theorem setupSlices3D_exact (fmt w h p s ps ni : Nat) :
    ∀ d idx cur,
      idx + d ≤ ni → cur + d * s ≤ ps →
      ∃ l, setupSlices3D fmt w h p s ps ni d idx cur =
          some (l, idx + d, cur + d * s)
        ∧ l.length = d := by
  intro d
  induction d with
  | zero =>
      intro idx cur hni hps
      exact ⟨[], by simp [setupSlices3D], rfl⟩
  | succ dd ih =>
      intro idx cur hni hps
      obtain ⟨l, hl, hlen⟩ := ih (idx + 1) (cur + s)
        (by omega) (by have : dd * s + s = (dd + 1) * s := by ring
                       omega)
      refine ⟨⟨w, h, fmt, p, s, cur⟩ :: l, ?_, by simp [hlen]⟩
      simp only [setupSlices3D]
      rw [if_neg (by omega), if_neg ?hbound, hl]
      case hbound =>
        have : (dd + 1) * s = dd * s + s := by ring
        omega
      have e1 : idx + 1 + dd = idx + (dd + 1) := by omega
      have e2 : cur + s + dd * s = cur + (dd + 1) * s := by ring
      rw [e1, e2]

theorem setupMips3D_exact (fmt cp : Nat) :
    ∀ levels w h d n t ps ni idx cur,
      detMips3D fmt cp w h d levels = some (n, t) →
      idx + n ≤ ni → cur + t ≤ ps →
      ∃ l, setupMips3D fmt cp ps ni w h d levels idx cur =
          some (l, idx + n, cur + t)
        ∧ l.length = n := by
  intro levels
  induction levels with
  | zero =>
      intro w h d n t ps ni idx cur hdet hni hps
      simp only [detMips3D, Option.some.injEq, Prod.mk.injEq] at hdet
      obtain ⟨rfl, rfl⟩ := hdet
      exact ⟨[], by simp [setupMips3D], rfl⟩
  | succ lev ih =>
      intro w h d n t ps ni idx cur hdet hni hps
      simp only [detMips3D] at hdet
      cases hcp : ComputePitch64 fmt w h cp with
      | invalidArg => rw [hcp] at hdet; simp at hdet
      | overflow => rw [hcp] at hdet; simp at hdet
      | ok p s =>
          rw [hcp] at hdet
          cases hrec : detMips3D fmt cp (halveDim w) (halveDim h) (halveDim d) lev with
          | none => rw [hrec] at hdet; simp at hdet
          | some nt =>
              obtain ⟨nr, tr⟩ := nt
              rw [hrec] at hdet
              simp only [Option.some.injEq, Prod.mk.injEq] at hdet
              obtain ⟨hn, ht⟩ := hdet
              obtain ⟨l1, hl1, hlen1⟩ := setupSlices3D_exact fmt w h p s ps ni d
                idx cur (by omega) (by omega)
              obtain ⟨l2, hl2, hlen2⟩ := ih (halveDim w) (halveDim h) (halveDim d)
                nr tr ps ni (idx + d) (cur + d * s) hrec (by omega) (by omega)
              refine ⟨l1 ++ l2, ?_, by simp [hlen1, hlen2]; omega⟩
              simp only [setupMips3D, hcp]
              rw [hl1]
              dsimp only
              rw [hl2]
              have e1 : idx + d + nr = idx + n := by omega
              have e2 : cur + d * s + tr = cur + t := by omega
              rw [e1, e2]

/-- C6: on the same metadata (with the planner's precondition
`arraySize, mipLevels, depth ≥ 1`), `DetermineImageArray` and
`SetupImageArray` are pure functions of the metadata and pitch policy, so
repeated calls give identical subresource counts and total sizes; and
materializing into a buffer of exactly the planned `pixelSize` succeeds, with
the cursor after the last subresource — the end of its byte range — landing
exactly at `pixelSize`: no slack, no overrun.  The hypothesis names the exact
(unwrapped) slice-pitch sum; `t < 2^64` says the `uint64_t` accumulator did
not wrap. -/
theorem determine_setup_image_array_exact (md : TexMetadata) (cp n t : Nat)
    (harr : 1 ≤ md.arraySize) (hmip : 1 ≤ md.mipLevels) (hdep : 1 ≤ md.depth)
    (hraw : ((md.dimension = TEX_DIMENSION_TEXTURE1D ∨
              md.dimension = TEX_DIMENSION_TEXTURE2D) ∧
             detItems2D md.format cp md.width md.height md.mipLevels
               md.arraySize = some (n, t))
          ∨ (md.dimension = TEX_DIMENSION_TEXTURE3D ∧
             detMips3D md.format cp md.width md.height md.depth
               md.mipLevels = some (n, t)))
    (hfit : t < 18446744073709551616) :
    DetermineImageArray md cp = some (n, t)
    ∧ ∃ l, SetupImageArray t md cp n = some (l, t) ∧ l.length = n := by
  rcases hraw with ⟨hdim, hdet⟩ | ⟨hdim, hdet⟩
  · constructor
    · simp only [DetermineImageArray]
      rw [if_pos hdim, hdet]
      have hmt : m64 t = t := Nat.mod_eq_of_lt hfit
      dsimp only
      rw [hmt]
    · obtain ⟨l, hl, hlen⟩ := setupItems2D_exact md.format cp md.width md.height
        md.mipLevels md.arraySize n t t n 0 0 hdet (by omega) (by omega)
      refine ⟨l, ?_, hlen⟩
      simp only [SetupImageArray]
      rw [if_pos hdim, if_neg (by omega), hl]
      dsimp only
      norm_num
  · have hnot12 : ¬ (md.dimension = TEX_DIMENSION_TEXTURE1D ∨
        md.dimension = TEX_DIMENSION_TEXTURE2D) := by
      rw [hdim]; decide
    constructor
    · simp only [DetermineImageArray]
      rw [if_neg hnot12, if_pos hdim, hdet]
      have hmt : m64 t = t := Nat.mod_eq_of_lt hfit
      dsimp only
      rw [hmt]
    · obtain ⟨l, hl, hlen⟩ := setupMips3D_exact md.format cp md.mipLevels md.width
        md.height md.depth n t t n 0 0 hdet (by omega) (by omega)
      refine ⟨l, ?_, hlen⟩
      simp only [SetupImageArray]
      rw [if_neg hnot12, if_pos hdim, if_neg (by omega), hl]
      dsimp only
      norm_num

/-- Concrete 2D array metadata used by the C6 witness: BC1, 4x4, 3 mip
levels, 2 array items; each mip chain sums 8+8+8 = 24 bytes, so the plan is
6 subresources in 48 bytes. -/
def mdPlan2D : TexMetadata :=
  { width := 4, height := 4, depth := 1, arraySize := 2, mipLevels := 3,
    miscFlags := 0, miscFlags2 := 0, format := DXGI_FORMAT_BC1_UNORM,
    dimension := TEX_DIMENSION_TEXTURE2D }

/-- C6 witness: the theorem applied to `mdPlan2D`. -/
theorem determine_setup_image_array_exact_witness :
    DetermineImageArray mdPlan2D 0 = some (6, 48) :=
  (determine_setup_image_array_exact mdPlan2D 0 6 48 (by decide) (by decide)
    (by decide) (Or.inl ⟨Or.inr rfl, by decide⟩) (by decide)).1

/-- A minimal 128-byte legacy DDS header: 2x2 `D3DFMT_R5G6B5` (RGB flags,
16 bpp, masks f800/07e0/001f), no volume/cubemap bits, mipMapCount 0. -/
def ddsLegacy565Header : List Nat :=
  [68, 68, 83, 32] ++       -- magic "DDS "
  [124, 0, 0, 0] ++         -- header size
  [0, 0, 0, 0] ++           -- flags
  [2, 0, 0, 0] ++           -- height = 2
  [2, 0, 0, 0] ++           -- width = 2
  [0, 0, 0, 0] ++           -- pitchOrLinearSize
  [0, 0, 0, 0] ++           -- depth
  [0, 0, 0, 0] ++           -- mipMapCount = 0 (defaults to 1)
  List.replicate 44 0 ++    -- reserved1[11]
  [32, 0, 0, 0] ++          -- ddspf.size
  [64, 0, 0, 0] ++          -- ddspf.flags = DDS_RGB
  [0, 0, 0, 0] ++           -- ddspf.fourCC
  [16, 0, 0, 0] ++          -- ddspf.RGBBitCount = 16
  [0, 248, 0, 0] ++         -- RBitMask = 0xF800
  [224, 7, 0, 0] ++         -- GBitMask = 0x07E0
  [31, 0, 0, 0] ++          -- BBitMask = 0x001F
  [0, 0, 0, 0] ++           -- ABitMask
  List.replicate 20 0       -- caps .. reserved2

example : ddsLegacy565Header.length = 128 := by decide

example :
    DecodeDDSHeader ddsLegacy565Header 128 0 =
      some ({ width := 2, height := 2, depth := 1, arraySize := 1, mipLevels := 1,
              miscFlags := 0, miscFlags2 := 0, format := DXGI_FORMAT_B5G6R5_UNORM,
              dimension := TEX_DIMENSION_TEXTURE2D }, CONV_FLAGS_565) := by
  decide

example : ComputePitch64 DXGI_FORMAT_YUY2 3 2 0 = .ok 8 16 := by decide
example : ComputePitch64 103 4 4 0 = .ok 4 24 := by decide
example : ComputePitch64 DXGI_FORMAT_R8G8B8A8_UNORM 3 2 CP_FLAGS_LEGACY_DWORD =
    .ok 12 24 := by decide
example : ComputePitch64 DXGI_FORMAT_R8_UNORM 3 2 CP_FLAGS_LEGACY_DWORD =
    .ok 4 8 := by decide

-- A legacy cubemap header with only five of the six face bits set fails.
def ddsLegacyPartialCube : List Nat :=
  ddsLegacy565Header.take 112 ++ [0, 126, 0, 0] ++ List.replicate 12 0

example : ddsLegacyPartialCube.length = 128 := by decide
example : DecodeDDSHeader ddsLegacyPartialCube 128 0 = none := by decide
